import Mathlib

/-!
Face attendance frontend: overlay renderer and live-recognition loop.

Shallow embedding of `AI-InternshipProject-No-04/FaceAttendence /project/frontend/script.js`.

* Pixel coordinates and measured text widths are integers (exact arithmetic; the
  rounding and NaN of JavaScript doubles are outside the model).
* A 2D canvas is its pixel size, the drawing-context state the script touches
  (`lineWidth`, `font`, `strokeStyle`, `fillStyle`, current path) and a display list
  of what has been painted since the canvas was last wiped.
* `ctx.measureText(label).width` is a parameter `measure font text`.
* The page state holds the script's two globals (`liveStream`, `recognizeIntervalId`),
  the live video element, the overlay canvas, the recognized-names list and logs of the
  observable effects (requests sent, alerts, console errors, interval timers scheduled).
* The asynchronous functions run to completion with the outcome of their awaits given as
  an argument; what the browser does in between is a separate event before or after.
  The native size the video element reports changes only by the event `loadedMetadata`;
  the script itself never writes it. `console.log` output is not recorded.
-/

namespace FaceAttendance

/-! ## Data model -/

/-- Bounding rectangle of one detection, `item.box`. -/
structure Box where
  top : Int
  right : Int
  bottom : Int
  left : Int
deriving DecidableEq, Repr

/-- One entry of `results`: `{box, name}` with `name : string | null`. -/
structure Detection where
  box : Box
  name : Option String
deriving DecidableEq, Repr

/-- A rounded rectangle sub-path, `ctx.roundRect(x, y, w, h, r)`. -/
structure RoundRect where
  x : Int
  y : Int
  w : Int
  h : Int
  r : Int
deriving DecidableEq, Repr

/-- One painted primitive of the display list. -/
inductive Painted where
  | strokeRoundRect (shape : RoundRect) (lineWidth : Int) (style : String)
  | fillRect (x y w h : Int) (style : String)
  | fillText (text : String) (x y : Int) (font style : String)
  | erased (x y w h : Int)
deriving DecidableEq, Repr

/-- A canvas element together with the state of its 2D context. -/
structure Canvas where
  width : Nat
  height : Nat
  lineWidth : Int
  font : String
  strokeStyle : String
  fillStyle : String
  path : List RoundRect
  painted : List Painted
deriving DecidableEq, Repr

/-- A freshly created canvas of the given size, with the context defaults. -/
def blankCanvas (width height : Nat) : Canvas :=
  { width := width, height := height, lineWidth := 1, font := "10px sans-serif",
    strokeStyle := "#000000", fillStyle := "#000000", path := [], painted := [] }

/-! ## Canvas context operations -/

/-- Effect of `ctx.clearRect(x, y, w, h)`: a rectangle covering the whole canvas wipes the
display list, any other rectangle is recorded as an erased region on top of it. -/
def clearRect (c : Canvas) (x y w h : Int) : Canvas :=
  if x ≤ 0 ∧ y ≤ 0 ∧ (c.width : Int) ≤ x + w ∧ (c.height : Int) ≤ y + h then
    { c with painted := [] }
  else
    { c with painted := c.painted ++ [Painted.erased x y w h] }

/-- Effect of `ctx.beginPath()`. -/
def beginPath (c : Canvas) : Canvas :=
  { c with path := [] }

/-- Effect of `ctx.roundRect(x, y, w, h, r)`: adds a sub-path to the current path. -/
def roundRect (c : Canvas) (x y w h r : Int) : Canvas :=
  { c with path := c.path ++ [{ x := x, y := y, w := w, h := h, r := r }] }

/-- Effect of `ctx.stroke()`: strokes every sub-path of the current path. -/
def stroke (c : Canvas) : Canvas :=
  { c with painted :=
      c.painted ++ c.path.map (fun s => Painted.strokeRoundRect s c.lineWidth c.strokeStyle) }

/-- Effect of `ctx.fillRect(x, y, w, h)`. -/
def fillRect (c : Canvas) (x y w h : Int) : Canvas :=
  { c with painted := c.painted ++ [Painted.fillRect x y w h c.fillStyle] }

/-- Effect of `ctx.fillText(text, x, y)`. -/
def fillText (c : Canvas) (text : String) (x y : Int) : Canvas :=
  { c with painted := c.painted ++ [Painted.fillText text x y c.font c.fillStyle] }

/-! ## `drawBoxes` -/

/-- JavaScript truthiness of a `string | null` value: `null` and `""` are falsy. -/
def truthy : Option String → Bool
  | none => false
  | some s => s != ""

/-- The colour expression `(name && name !== 'Unknown') ? '#22c55e' : '#ef4444'`. -/
def strokeColor (name : Option String) : String :=
  if truthy name && name != some "Unknown" then "#22c55e" else "#ef4444"

/-- The label expression `name || 'Unknown'`. -/
def labelOf (name : Option String) : String :=
  match name with
  | some s => if truthy (some s) then s else "Unknown"
  | none => "Unknown"

/-- The clamp `Math.max(0, Math.min(canvas.width - textWidth - 8, left + 6))`. -/
def labelX (canvasWidth textWidth left : Int) : Int :=
  max 0 (min (canvasWidth - textWidth - 8) (left + 6))

/-- The flip `top - 8 < 0 ? top + 16 : top - 8`. -/
def labelY (top : Int) : Int :=
  if top - 8 < 0 then top + 16 else top - 8

/-- Body of the `boxes.forEach` callback of `drawBoxes`. -/
def drawItem (measure : String → String → Int) (c : Canvas) (item : Detection) : Canvas :=
  let top := item.box.top
  let right := item.box.right
  let bottom := item.box.bottom
  let left := item.box.left
  let name := item.name
  let c := { c with strokeStyle := strokeColor name }
  let c := { c with fillStyle := c.strokeStyle }
  let c := beginPath c
  let c := roundRect c left top (right - left) (bottom - top) 6
  let c := stroke c
  let label := labelOf name
  let textWidth := measure c.font label
  let lx := labelX c.width textWidth left
  let ly := labelY top
  let c := fillRect c (lx - 4) (ly - 12) (textWidth + 8) 16
  let c := { c with fillStyle := "#0b1220" }
  fillText c label lx ly

/-- The function `drawBoxes(canvas, boxes)`. -/
def drawBoxes (measure : String → String → Int) (canvas : Canvas) (boxes : List Detection) :
    Canvas :=
  let c := clearRect canvas 0 0 canvas.width canvas.height
  let c := { c with lineWidth := 2 }
  let c := { c with font := "14px system-ui" }
  boxes.foldl (drawItem measure) c

/-- What `drawBoxes` paints for one detection on a canvas of the given width: the stroked
box, the label background and the label text, in this order. -/
def itemOverlay (measure : String → String → Int) (canvasWidth : Nat) (item : Detection) :
    List Painted :=
  let label := labelOf item.name
  let textWidth := measure "14px system-ui" label
  let lx := labelX canvasWidth textWidth item.box.left
  let ly := labelY item.box.top
  [ Painted.strokeRoundRect
      { x := item.box.left, y := item.box.top, w := item.box.right - item.box.left,
        h := item.box.bottom - item.box.top, r := 6 } 2 (strokeColor item.name),
    Painted.fillRect (lx - 4) (ly - 12) (textWidth + 8) 16 (strokeColor item.name),
    Painted.fillText label lx ly "14px system-ui" "#0b1220" ]

/-- A fixed-pitch text measure for concrete evaluations: 8 pixels per character. -/
def monoMeasure (_font : String) (text : String) : Int :=
  8 * text.length

/-! ## Live recognition: page state -/

/-- A thrown JavaScript error, as far as the script reads it (`e.name`, `e.message`). -/
structure JsError where
  name : String
  message : String
deriving DecidableEq, Repr

/-- The parsed JSON answer of the recognition endpoint: `success` by truthiness, `results`
present or absent. -/
structure Response where
  success : Bool
  results : Option (List Detection)
deriving DecidableEq, Repr

/-- How the awaited `postJSON` call of one tick ends: `fetch` or `res.json()` rejects, or a
parsed answer is returned. -/
inductive Reply where
  | failed (e : JsError)
  | json (resp : Response)
deriving DecidableEq, Repr

/-- How the two awaits of `startLiveCam` end: `getUserMedia` rejects; `getUserMedia`
resolves and `liveVideo.play()` rejects; both resolve. -/
inductive StartOutcome where
  | acquireFailed (e : JsError)
  | playFailed (e : JsError)
  | started
deriving DecidableEq, Repr

/-- A still frame encoded from the temporary canvas (`dataUrlFromCanvas`), known by its
pixel size. -/
structure Frame where
  width : Nat
  height : Nat
deriving DecidableEq, Repr

/-- One `<li>` of the recognized-names list. -/
structure ListItem where
  text : String
  color : String
deriving DecidableEq, Repr

/-- One `console.error(tag, e)` entry. -/
structure ConsoleEntry where
  tag : String
  error : JsError
deriving DecidableEq, Repr

/-- State of the live-recognition part of the page. Stream objects and interval handles
are numbered; `stopped` lists the stream objects whose tracks have all been stopped and
`timers` the interval handles the browser currently has scheduled. -/
structure Page where
  liveStream : Option Nat
  recognizeIntervalId : Option Nat
  stopped : List Nat
  nextStream : Nat
  timers : List Nat
  nextHandle : Nat
  srcObject : Option Nat
  videoWidth : Nat
  videoHeight : Nat
  clientWidth : Nat
  clientHeight : Nat
  onloadedmetadata : Bool
  resizeListeners : Nat
  overlay : Canvas
  overlayStyle : Option (Nat × Nat)
  recognizedList : List ListItem
  encoded : List Frame
  requests : List Frame
  alerts : List String
  consoleErrors : List ConsoleEntry
deriving DecidableEq, Repr

/-- The page right after the script has loaded: both globals undefined, no stream bound to
the video, nothing scheduled. The overlay canvas has the size given by the markup. -/
def initialPage (overlayWidth overlayHeight : Nat) : Page :=
  { liveStream := none, recognizeIntervalId := none, stopped := [], nextStream := 1,
    timers := [], nextHandle := 1, srcObject := none, videoWidth := 0, videoHeight := 0,
    clientWidth := 0, clientHeight := 0, onloadedmetadata := false, resizeListeners := 0,
    overlay := blankCanvas overlayWidth overlayHeight, overlayStyle := none,
    recognizedList := [], encoded := [], requests := [], alerts := [], consoleErrors := [] }

/-- The live stream is active: `liveStream` refers to a stream whose tracks have not been
stopped. -/
def streamActive (s : Page) : Bool :=
  match s.liveStream with
  | some id => !(s.stopped.contains id)
  | none => false

/-- Truthiness of the interval handle global (`undefined`, `null` and `0` are falsy). -/
def handleSet : Option Nat → Bool
  | some h => h != 0
  | none => false

/-- Effect of `clearInterval(h)` on the scheduled handles. -/
def clearInterval (timers : List Nat) (h : Nat) : List Nat :=
  timers.filter (fun t => t != h)

/-- The statement `if (liveStream) liveStream.getTracks().forEach(t => t.stop())`. -/
def stopTracks (s : Page) : Page :=
  match s.liveStream with
  | some id => { s with stopped := s.stopped ++ [id] }
  | none => s

/-- The text of the `alert` in the `catch` of `startLiveCam`. -/
def cameraAlert (e : JsError) : String :=
  "Cannot access camera: " ++ e.name ++ " - " ++ e.message ++
    "\nTips:\n• Use http://127.0.0.1:8080 (not file://)\n• Allow camera permission" ++
    "\n• Select a camera from dropdown\n• Close other apps using camera"

/-- The `catch (e)` block of `startLiveCam`. -/
def startCatch (s : Page) (e : JsError) : Page :=
  { s with alerts := s.alerts ++ [cameraAlert e],
           consoleErrors := s.consoleErrors ++ [{ tag := "Live camera error:", error := e }] }

/-- The closure `resizeOverlayToVideo`. Assigning a canvas dimension resets its bitmap and
its context state. -/
def resizeOverlayToVideo (s : Page) : Page :=
  if s.videoWidth = 0 ∨ s.videoHeight = 0 then s
  else
    { s with overlay := blankCanvas s.videoWidth s.videoHeight,
             overlayStyle := some (s.clientWidth, s.clientHeight) }

/-- The function `startLiveCam`, run to completion with the given outcome of its awaits.
The camera constraints only feed `getUserMedia`, whose outcome is the parameter. -/
def startLiveCam (s : Page) (o : StartOutcome) : Page :=
  let s := stopTracks s
  match o with
  | StartOutcome.acquireFailed e => startCatch s e
  | StartOutcome.playFailed e =>
    let s := { s with liveStream := some s.nextStream, nextStream := s.nextStream + 1 }
    let s := { s with srcObject := s.liveStream }
    startCatch s e
  | StartOutcome.started =>
    let s := { s with liveStream := some s.nextStream, nextStream := s.nextStream + 1 }
    let s := { s with srcObject := s.liveStream }
    let s := { s with onloadedmetadata := true }
    let s := { s with resizeListeners := s.resizeListeners + 1 }
    let s :=
      if handleSet s.recognizeIntervalId then
        { s with timers := clearInterval s.timers (s.recognizeIntervalId.getD 0) }
      else s
    { s with recognizeIntervalId := some s.nextHandle, timers := s.timers ++ [s.nextHandle],
             nextHandle := s.nextHandle + 1 }

/-- The function `stopLiveCam`. -/
def stopLiveCam (s : Page) : Page :=
  let s :=
    if handleSet s.recognizeIntervalId then
      { s with timers := clearInterval s.timers (s.recognizeIntervalId.getD 0),
               recognizeIntervalId := none }
    else s
  match s.liveStream with
  | some id => { s with stopped := s.stopped ++ [id], liveStream := none }
  | none => s

/-- The awaited `postJSON(url, { image })`: rejects or yields the parsed answer. -/
def postJSON (reply : Reply) : Except JsError Response :=
  match reply with
  | Reply.failed e => Except.error e
  | Reply.json resp => Except.ok resp

/-- The `<li>` built for one result: `textContent = item.name` and the colour ternary. -/
def listItemOf (item : Detection) : ListItem :=
  { text := item.name.getD "", color := strokeColor item.name }

/-- The body of the `try` block of `captureAndRecognize`. -/
def recognizeBody (measure : String → String → Int) (s : Page) (reply : Reply) :
    Except JsError Page := do
  let resp ← postJSON reply
  if resp.success then
    let results := resp.results.getD []
    pure { s with overlay := drawBoxes measure s.overlay results,
                  recognizedList := results.map listItemOf }
  else
    pure s

/-- The function `captureAndRecognize`, one firing of the interval callback, run to
completion with the given end of its request. -/
def captureAndRecognize (measure : String → String → Int) (s : Page) (reply : Reply) : Page :=
  if s.videoWidth = 0 then s
  else
    let image : Frame := { width := s.videoWidth, height := s.videoHeight }
    let s := { s with encoded := s.encoded ++ [image] }
    let s := { s with requests := s.requests ++ [image] }
    match recognizeBody measure s reply with
    | Except.ok s1 => s1
    | Except.error e =>
      { s with consoleErrors := s.consoleErrors ++ [{ tag := "recognize error", error := e }] }

/-- What can happen to the page: the two buttons, a firing of the interval callback, the
video element learning the native size of its stream, and a window resize. -/
inductive Event where
  | start (o : StartOutcome)
  | stop
  | tick (reply : Reply)
  | loadedMetadata (width height : Nat)
  | windowResize
deriving DecidableEq, Repr

/-- One event. The interval callback fires only while a handle is scheduled; the metadata
handler and the resize listeners run only once installed. -/
def step (measure : String → String → Int) (s : Page) : Event → Page
  | Event.start o => startLiveCam s o
  | Event.stop => stopLiveCam s
  | Event.tick reply => if s.timers = [] then s else captureAndRecognize measure s reply
  | Event.loadedMetadata w h =>
    let s := { s with videoWidth := w, videoHeight := h }
    if s.onloadedmetadata then resizeOverlayToVideo s else s
  | Event.windowResize => if s.resizeListeners = 0 then s else resizeOverlayToVideo s

/-- A sequence of events, from the first to the last. -/
def run (measure : String → String → Int) (s : Page) (events : List Event) : Page :=
  events.foldl (step measure) s

/-- The failure replies of a tick: a transport error, or an answer whose success flag is
not set. -/
def Reply.isFailure : Reply → Bool
  | Reply.failed _ => true
  | Reply.json resp => !resp.success

/-! ## Observations on a display list -/

/-- The whole overlay `drawBoxes` paints for a detection list on a canvas of the given
width: the drawings of the detections, one after the other. -/
def overlayOf (measure : String → String → Int) (canvasWidth : Nat) (boxes : List Detection) :
    List Painted :=
  boxes.flatMap (itemOverlay measure canvasWidth)

/-- The stroked boxes of a display list, each with its colour. -/
def strokesOf (ps : List Painted) : List (RoundRect × String) :=
  ps.filterMap fun p =>
    match p with
    | Painted.strokeRoundRect shape _ style => some (shape, style)
    | _ => none

/-- The label texts of a display list, each with its position `(x, y)`. -/
def textsOf (ps : List Painted) : List (String × Int × Int) :=
  ps.filterMap fun p =>
    match p with
    | Painted.fillText text x y _ _ => some (text, x, y)
    | _ => none

/-- The filled label backgrounds of a display list, each with its left edge `x` and its
width, in drawing order. -/
def backgroundsOf (ps : List Painted) : List (Int × Int) :=
  ps.filterMap fun p =>
    match p with
    | Painted.fillRect x _ w _ _ => some (x, w)
    | _ => none

/-- The rectangle `drawBoxes` strokes for a detection. -/
def boxShape (item : Detection) : RoundRect :=
  { x := item.box.left, y := item.box.top, w := item.box.right - item.box.left,
    h := item.box.bottom - item.box.top, r := 6 }

/-! ## Concrete inputs -/

/-- A detection whose name is 40 characters long (320 pixels under `monoMeasure`). -/
def longNameDetection : Detection :=
  { box := { top := 40, right := 210, bottom := 200, left := 90 },
    name := some "Bartholomew Featherstonehaugh-Cholmondel" }

/-- A detection whose box starts left of the frame. -/
def offFrameDetection : Detection :=
  { box := { top := 40, right := 70, bottom := 120, left := -10 }, name := some "Alice" }

/-- A detection near the left border of a canvas barely wider than its label. -/
def tightDetection : Detection :=
  { box := { top := 40, right := 50, bottom := 90, left := 10 }, name := some "Alice" }

/-- A detection whose name is the empty string. -/
def emptyNameDetection : Detection :=
  { box := { top := 10, right := 110, bottom := 90, left := 10 }, name := some "" }

/-- The error of a denied camera permission. -/
def permissionDenied : JsError :=
  { name := "NotAllowedError", message := "Permission denied" }

/-- The events of a session that starts, learns a 640 by 480 video, and is then started
again with the camera refused. -/
def failedRestart : List Event :=
  [Event.start StartOutcome.started, Event.loadedMetadata 640 480,
   Event.start (StartOutcome.acquireFailed permissionDenied)]

/-- An answer of the recognition endpoint with one known face. -/
def oneFaceAnswer : Response :=
  { success := true, results := some [tightDetection] }

/-- An answer of the recognition endpoint whose success flag is not set. -/
def refusedAnswer : Response :=
  { success := false, results := none }

/-- A transport error of `fetch`. -/
def networkError : JsError :=
  { name := "TypeError", message := "Failed to fetch" }

/-- The page of a session that has started and learnt a 640 by 480 video. -/
def streamingPage : Page :=
  run monoMeasure (initialPage 300 150)
    [Event.start StartOutcome.started, Event.loadedMetadata 640 480]

/-- The interval handle global and the scheduled handles agree: either nothing is
scheduled and the global is unset, or exactly the handle held by the global is scheduled.
Handles are positive. -/
def TimerTracked (s : Page) : Prop :=
  0 < s.nextHandle ∧
    ((s.timers = [] ∧ s.recognizeIntervalId = none) ∨
      ∃ h, 0 < h ∧ h < s.nextHandle ∧ s.timers = [h] ∧ s.recognizeIntervalId = some h)

/-- An answer with the success flag set and no `results` property. -/
def absentListAnswer : Response :=
  { success := true, results := none }

/-- An answer with the success flag set and an empty `results` array. -/
def emptyListAnswer : Response :=
  { success := true, results := some [] }

/-- The detection of the first scenario: a known face named Alice. -/
def aliceDetection : Detection :=
  { box := { top := 10, right := 110, bottom := 90, left := 10 }, name := some "Alice" }

/-- The detection of the second scenario: a face without a name. -/
def namelessDetection : Detection :=
  { box := { top := 5, right := 60, bottom := 45, left := 5 }, name := none }

/-- The events of a first start during whose `await liveVideo.play()` the video element
learns its 640 by 480 size: the `loadedmetadata` event comes before the line that installs
`onloadedmetadata` has run, so here it precedes the completed start; then one tick is
answered with one face. -/
def metadataDuringPlay : List Event :=
  [Event.loadedMetadata 640 480, Event.start StartOutcome.started,
   Event.tick (Reply.json oneFaceAnswer)]

end FaceAttendance

/-! ## Meeting summarizer: file selection
Embedding of `AI-InternshipProject-No-03/Ai meeting summarize/frontend/script.js`. -/

namespace MeetingMinutes

/-- A `File` as the script reads it: its name and its size in bytes. -/
structure File where
  name : String
  size : Nat
deriving DecidableEq, Repr

/-- One toast shown by `showToast(message, type)`. -/
structure Toast where
  message : String
  type : String
deriving DecidableEq, Repr

/-- The upload part of the page: the global `selectedFile`, the toasts shown, and the
elements `displayFileInfo` and the button logic write. -/
structure UploadPage where
  selectedFile : Option File
  toasts : List Toast
  fileNameText : String
  fileSizeText : String
  fileInfoDisplay : String
  uploadAreaDisplay : String
  processBtnDisabled : Bool
deriving DecidableEq, Repr

/-- The upload page with no file selected, as `clearSelectedFile` leaves it. -/
def emptyUpload : UploadPage :=
  { selectedFile := none, toasts := [], fileNameText := "", fileSizeText := "",
    fileInfoDisplay := "none", uploadAreaDisplay := "block", processBtnDisabled := true }

/-- The function `showToast(message, type)`: the toast is appended to the container. -/
def showToast (s : UploadPage) (message type : String) : UploadPage :=
  { s with toasts := s.toasts ++ [{ message := message, type := type }] }

/-- The test `file.name.toLowerCase().endsWith('.mp3')`; lower-casing by ASCII letters,
the only ones that can produce the characters of the suffix. -/
def endsWithMp3 (name : String) : Bool :=
  (".mp3".toList).isSuffixOf (name.toList.map Char.toLower)

/-- The constant `maxSize = 100 * 1024 * 1024`. -/
def maxSize : Nat :=
  100 * 1024 * 1024

/-- The function `displayFileInfo(file)`; `formatFileSize`, which computes in floating
point, is a parameter. -/
def displayFileInfo (formatFileSize : Nat → String) (s : UploadPage) (file : File) :
    UploadPage :=
  { s with fileNameText := file.name, fileSizeText := formatFileSize file.size,
           fileInfoDisplay := "block", uploadAreaDisplay := "none" }

/-- The function `handleFileSelection(file)`. -/
def handleFileSelection (formatFileSize : Nat → String) (s : UploadPage) (file : File) :
    UploadPage :=
  if !endsWithMp3 file.name then
    showToast s "Please select an MP3 file only." "error"
  else if file.size > maxSize then
    showToast s "File size must be less than 100MB." "error"
  else
    let s := { s with selectedFile := some file }
    let s := displayFileInfo formatFileSize s file
    { s with processBtnDisabled := false }

/-- A size text for concrete evaluations: the number of bytes. -/
def plainSize (bytes : Nat) : String :=
  toString bytes ++ " Bytes"

/-- A 200 MB file that is not named as an MP3. -/
def bigWav : File :=
  { name := "board-meeting.wav", size := 200 * 1024 * 1024 }

/-- An MP3 of exactly 100 MB. -/
def exactLimitMp3 : File :=
  { name := "board-meeting.mp3", size := 100 * 1024 * 1024 }

/-- An MP3 one byte above 100 MB. -/
def overLimitMp3 : File :=
  { name := "Board-Meeting.MP3", size := 100 * 1024 * 1024 + 1 }

end MeetingMinutes

/-! ## Built-in string functions -/

namespace Js

/-- The code points `String.prototype.trim` strips: white space and line terminators. -/
def isWhiteSpace (c : Char) : Bool :=
  [9, 10, 11, 12, 13, 32, 160, 5760, 8232, 8233, 8239, 8287, 12288, 65279].contains c.toNat ||
    (8192 ≤ c.toNat && c.toNat ≤ 8202)

/-- The string `s.trim()`. -/
def trim (s : String) : String :=
  String.mk ((s.toList.dropWhile isWhiteSpace).reverse.dropWhile isWhiteSpace).reverse

end Js

/-! ## CV generator: responsibilities and ATS keywords
Embedding of `AI-InternshipProject:No-2/AI resume Generator/static/js/app.js`. -/

namespace CVGenerator

/-- One toast shown by `showToast(message, type)`. -/
structure Toast where
  message : String
  type : String
deriving DecidableEq, Repr

/-- One `.experience-item`: its `data-index` and, for its `.responsibilities-container`,
the `name` attributes of the textareas of its `.responsibility-item`s in document order. -/
structure Experience where
  index : Nat
  responsibilities : List String
deriving DecidableEq, Repr

/-- One `.ats-keyword` element: the text of its span and whether it has the class
`selected`. -/
structure Keyword where
  text : String
  selected : Bool
deriving DecidableEq, Repr

/-- The part of the CV form the embedded methods read and write. -/
structure Form where
  experienceCount : Nat
  experiences : List Experience
  skillsTechnical : String
  atsKeywords : List Keyword
  toasts : List Toast
deriving DecidableEq, Repr

/-- The form right after construction: no experience, no keyword, empty skills field. -/
def emptyForm : Form :=
  { experienceCount := 0, experiences := [], skillsTechnical := "", atsKeywords := [],
    toasts := [] }

/-- The method `showToast(message, type)`: the toast is appended to the container. -/
def showToast (f : Form) (message type : String) : Form :=
  { f with toasts := f.toasts ++ [{ message := message, type := type }] }

/-- The attribute `name="experience_${experienceIndex}_resp_${respIndex}"`. -/
def respName (experienceIndex respIndex : Nat) : String :=
  "experience_" ++ toString experienceIndex ++ "_resp_" ++ toString respIndex

/-- The method `addExperienceItem()`: the counter is incremented and an experience with
one responsibility, `resp_1`, is appended. -/
def addExperienceItem (f : Form) : Form :=
  let f := { f with experienceCount := f.experienceCount + 1 }
  { f with experiences :=
      f.experiences ++
        [{ index := f.experienceCount, responsibilities := [respName f.experienceCount 1] }] }

/-- Insertion of a responsibility into the container `getElementById` finds for
`responsibilities_${experienceIndex}`, the first one with that id. -/
def addResponsibilityIn (experienceIndex : Nat) : List Experience → List Experience
  | [] => []
  | e :: rest =>
    if e.index = experienceIndex then
      { e with responsibilities :=
          e.responsibilities ++
            [respName experienceIndex (e.responsibilities.length + 1)] } :: rest
    else e :: addResponsibilityIn experienceIndex rest

/-- The method `addResponsibility(experienceIndex)`. -/
def addResponsibility (f : Form) (experienceIndex : Nat) : Form :=
  { f with experiences := addResponsibilityIn experienceIndex f.experiences }

/-- The method `removeResponsibility(button)`, for the button of the responsibility item
at position `k` in the container of the experience at position `p` (both counted from 0 in
document order). A button that is not in the document cannot be clicked. -/
def removeResponsibility (f : Form) (p k : Nat) : Form :=
  match f.experiences.get? p with
  | none => f
  | some e =>
    if k < e.responsibilities.length then
      if e.responsibilities.length > 1 then
        { f with experiences :=
            f.experiences.set p { e with responsibilities := e.responsibilities.eraseIdx k } }
      else
        showToast f "At least one responsibility is required" "warning"
    else f

/-- The operations on responsibilities and the creation of experiences. -/
inductive FormOp where
  | addExperience
  | addResp (experienceIndex : Nat)
  | removeResp (p k : Nat)
deriving DecidableEq, Repr

/-- One operation on the form. -/
def applyOp (f : Form) : FormOp → Form
  | FormOp.addExperience => addExperienceItem f
  | FormOp.addResp i => addResponsibility f i
  | FormOp.removeResp p k => removeResponsibility f p k

/-- A sequence of operations, from the first to the last. -/
def applyOps (f : Form) (ops : List FormOp) : Form :=
  ops.foldl applyOp f

/-- Every experience of the form has at least one responsibility. -/
def KeepsResponsibility (f : Form) : Prop :=
  ∀ e ∈ f.experiences, 1 ≤ e.responsibilities.length

/-- One character of `toLowerCase()`: the capitals of ASCII and of Latin-1 (U+00C0 to
U+00DE without the multiplication sign U+00D7) are 32 below their small letters; the
capitals of other scripts are left as they are. -/
def lowerChar (c : Char) : Char :=
  if (65 ≤ c.toNat ∧ c.toNat ≤ 90) ∨ (192 ≤ c.toNat ∧ c.toNat ≤ 222 ∧ c.toNat ≠ 215) then
    Char.ofNat (c.toNat + 32)
  else c

/-- The characters of `s.toLowerCase()`. -/
def lower (s : String) : List Char :=
  s.toList.map lowerChar

/-- The test `hay.includes(needle)` on character lists. -/
def includes (hay needle : List Char) : Bool :=
  hay.tails.any fun t => needle.isPrefixOf t

/-- The string `s.trim()`. -/
def trim (s : String) : String :=
  Js.trim s

/-- The texts of the elements matching `.ats-keyword.selected`. -/
def selectedKeywords (f : Form) : List String :=
  (f.atsKeywords.filter fun k => k.selected).map fun k => k.text

/-- The callback of `selectedKeywords.forEach` in `addSelectedKeywords`: the keyword is
appended unless the current skills already include it, ignoring case. -/
def appendKeyword (currentSkills : String) (newSkills keyword : String) : String :=
  if !includes (lower currentSkills) (lower keyword) then
    newSkills ++ (if newSkills ≠ "" then ", " else "") ++ keyword
  else newSkills

/-- The method `addSelectedKeywords()`. -/
def addSelectedKeywords (f : Form) : Form :=
  let selected := selectedKeywords f
  if selected.length = 0 then
    showToast f "Please select some keywords first" "warning"
  else
    let currentSkills := trim f.skillsTechnical
    let newSkills := selected.foldl (appendKeyword currentSkills) currentSkills
    let f := { f with skillsTechnical := newSkills }
    let f := { f with atsKeywords := f.atsKeywords.map fun k => { k with selected := false } }
    showToast f ("Added " ++ toString selected.length ++ " keywords to technical skills!")
      "success"

/-- The selected keywords that `addSelectedKeywords` appends to the skills field: those the
current skills do not include. -/
def appendedKeywords (f : Form) : List String :=
  (selectedKeywords f).filter fun k => !includes (lower (trim f.skillsTechnical)) (lower k)

/-- A form whose skills field already holds "Python", with "Python" and "Docker"
selected among three keywords. -/
def pythonForm : Form :=
  { emptyForm with
    skillsTechnical := "Python",
    atsKeywords :=
      [{ text := "Python", selected := true }, { text := "Docker", selected := true },
       { text := "AWS", selected := false }] }

end CVGenerator

/-! ## JavaScript objects as finite maps
A plain object is the list of its own string-keyed properties in insertion order. Reads
of the members it inherits from `Object.prototype` are modelled where a read can reach
them. -/

namespace Js

/-- The read `o[key]`: the value of the property, or nothing when the object has none. -/
def objGet {α : Type} : List (String × α) → String → Option α
  | [], _ => none
  | (k, v) :: rest, key => if k = key then some v else objGet rest key

/-- The write `o[key] = v`: an existing property keeps its place, a new one is added last. -/
def objSet {α : Type} : List (String × α) → String → α → List (String × α)
  | [], key, v => [(key, v)]
  | (k, w) :: rest, key, v =>
    if k = key then (k, v) :: rest else (k, w) :: objSet rest key v

/-- The names of the members every plain object inherits from `Object.prototype`. -/
def prototypeNames : List String :=
  ["constructor", "__defineGetter__", "__defineSetter__", "hasOwnProperty",
   "__lookupGetter__", "__lookupSetter__", "isPrototypeOf", "propertyIsEnumerable",
   "toString", "valueOf", "__proto__", "toLocaleString"]

end Js

namespace CVGenerator

/-! ### Click listeners of `bindEvents` -/

/-- The methods `bindEvents` and `bindFormUpdates` call from their listeners. -/
inductive Handler where
  | generateCV
  | openCsvDialog
  | handleCsvUpload
  | downloadPDF
  | addExperienceItem
  | addProjectItem
  | addCertificationItem
  | generateSummary
  | testApiKey
  | generateAtsKeywords
  | addSelectedKeywords
  | clearAtsKeywords
  | updateLivePreview
deriving DecidableEq, Repr

/-- One `addEventListener` registration: the id of the element, the event type and the
method the arrow function calls. Every registration is a new function object, so none is
dropped as a duplicate. -/
structure Listener where
  target : String
  event : String
  handler : Handler
deriving DecidableEq, Repr

/-- The `CVGenerator` instance with the dynamic sections of the document: the form part,
the two counters, the `data-index` values of the project and certification items, and the
listeners registered so far. -/
structure Generator where
  form : Form
  projectCount : Nat
  projects : List Nat
  certificationCount : Nat
  certifications : List Nat
  listeners : List Listener
deriving DecidableEq, Repr

/-- The method `addProjectItem()`: the counter is incremented and one `.project-item` with
that `data-index` is appended. -/
def addProjectItem (g : Generator) : Generator :=
  let g := { g with projectCount := g.projectCount + 1 }
  { g with projects := g.projects ++ [g.projectCount] }

/-- The method `addCertificationItem()`. -/
def addCertificationItem (g : Generator) : Generator :=
  let g := { g with certificationCount := g.certificationCount + 1 }
  { g with certifications := g.certifications ++ [g.certificationCount] }

/-- The call `document.getElementById(target).addEventListener(event, ...)`. -/
def addEventListener (g : Generator) (target event : String) (handler : Handler) : Generator :=
  { g with listeners := g.listeners ++ [{ target := target, event := event, handler := handler }] }

/-- The method `bindFormUpdates()`. -/
def bindFormUpdates (g : Generator) : Generator :=
  addEventListener g "cvForm" "input" Handler.updateLivePreview

/-- The method `bindEvents()`, registration by registration in source order. -/
def bindEvents (g : Generator) : Generator :=
  let g := addEventListener g "cvForm" "submit" Handler.generateCV
  let g := addEventListener g "uploadCsvBtn" "click" Handler.openCsvDialog
  let g := addEventListener g "csvFileInput" "change" Handler.handleCsvUpload
  let g := addEventListener g "downloadPdfBtn" "click" Handler.downloadPDF
  let g := addEventListener g "addExperienceBtn" "click" Handler.addExperienceItem
  let g := addEventListener g "addProjectBtn" "click" Handler.addProjectItem
  let g := addEventListener g "addCertificationBtn" "click" Handler.addCertificationItem
  let g := addEventListener g "generateSummaryBtn" "click" Handler.generateSummary
  let g := addEventListener g "testApiBtn" "click" Handler.testApiKey
  let g := addEventListener g "generateAtsKeywordsBtn" "click" Handler.generateAtsKeywords
  let g := addEventListener g "addSelectedKeywordsBtn" "click" Handler.addSelectedKeywords
  let g := addEventListener g "clearKeywordsBtn" "click" Handler.clearAtsKeywords
  let g := addEventListener g "addProjectBtn" "click" Handler.addProjectItem
  let g := addEventListener g "addCertificationBtn" "click" Handler.addCertificationItem
  bindFormUpdates g

/-- The instance right after `new CVGenerator()`: counters at zero, then `init()` has run
`bindEvents()` (`loadSampleData` only logs). -/
def newGenerator : Generator :=
  bindEvents
    { form := emptyForm, projectCount := 0, projects := [], certificationCount := 0,
      certifications := [], listeners := [] }

/-- One listener call. The methods that wait for the network or the file dialog are not
embedded: a dispatch that reaches one of them has no result here. -/
def runHandler (g : Generator) : Handler → Option Generator
  | Handler.addExperienceItem => some { g with form := addExperienceItem g.form }
  | Handler.addProjectItem => some (addProjectItem g)
  | Handler.addCertificationItem => some (addCertificationItem g)
  | Handler.addSelectedKeywords => some { g with form := addSelectedKeywords g.form }
  | Handler.updateLivePreview => some g
  | _ => none

/-- The listeners of `target` for `event` are called in the order of their registration. -/
def runListeners (target event : String) : List Listener → Generator → Option Generator
  | [], g => some g
  | l :: rest, g =>
    if l.target = target ∧ l.event = event then
      (runHandler g l.handler).bind (runListeners target event rest)
    else runListeners target event rest g

/-- One click on the element with the given id. -/
def click (g : Generator) (target : String) : Option Generator :=
  runListeners target "click" g.listeners g

/-! ### The projects section of `getTemplate` -/

/-- One entry of `data.projects`. -/
structure Project where
  title : Option String
  description : Option String
  technologies : Option (List String)
deriving DecidableEq, Repr

/-- One `<div class="cv-project-item">` of the template: the title, the description
paragraph when it is emitted, and the technology tags when they are emitted. -/
structure ProjectEntry where
  title : String
  description : Option String
  technologies : Option (List String)
deriving DecidableEq, Repr

/-- JavaScript truthiness of an optional string: absent and `""` are falsy. -/
def truthyText : Option String → Bool
  | none => false
  | some s => s != ""

/-- The `.map(proj => ...)` callback of the projects section. -/
def projectEntry (proj : Project) : ProjectEntry :=
  { title := proj.title.getD "",
    description := if truthyText proj.description then proj.description else none,
    technologies :=
      match proj.technologies with
      | some techs => if techs.length > 0 then some techs else none
      | none => none }

/-- The interpolation of `getTemplate` that renders `data.projects`: the section with one
entry per project with a truthy title, or nothing (the empty string) when the condition
`data.projects && data.projects.length > 0 && data.projects[0].title` is falsy. The other
interpolations of the template do not read `data.projects`. -/
def projectsSection (projects : Option (List Project)) : Option (List ProjectEntry) :=
  match projects with
  | none => none
  | some [] => none
  | some (first :: rest) =>
    if truthyText first.title then
      some (((first :: rest).filter fun proj => truthyText proj.title).map projectEntry)
    else none

/-- A project list whose first project has no title and whose second has one. -/
def blankFirstProjects : List Project :=
  [{ title := some "", description := none, technologies := none },
   { title := some "Inventory Tracker", description := some "Stock levels for a warehouse",
     technologies := some ["React", "Flask"] }]

/-! ### Collecting the form by field name -/

/-- The method `getFormData()` on the entries of `new FormData(form)`, given in document
order: a later entry with the same name overwrites the earlier one. -/
def getFormData (entries : List (String × String)) : List (String × String) :=
  entries.foldl (fun data entry => Js.objSet data entry.1 entry.2) []

/-- The form entries of the responsibility fields of one experience, for the given texts
typed into them. -/
def responsibilityEntries (e : Experience) (texts : List String) : List (String × String) :=
  e.responsibilities.zip texts

/-- The operations: create an experience, add a second responsibility, remove the first
one, add another. -/
def removeThenAdd : List FormOp :=
  [FormOp.addExperience, FormOp.addResp 1, FormOp.removeResp 0 0, FormOp.addResp 1]

end CVGenerator

/-! ## Product recommendation: form validation
Embedding of `AI-InternshipProject-No-01/frontend/product-recommend/frontend/script.js`. -/

namespace ProductRecommendation

/-- The part of `ProductRecommendationApp` that `validateForm` writes: the `disabled`
property of the submit button. -/
structure App where
  submitDisabled : Bool
deriving DecidableEq, Repr

/-- The object `Object.fromEntries(formData)` for the text entries of the form in document
order. -/
def fromEntries (entries : List (String × String)) : List (String × String) :=
  entries.foldl (fun data entry => Js.objSet data entry.1 entry.2) []

/-- The array `requiredFields`. -/
def requiredFields : List String :=
  ["region", "gender", "user_age_group", "user_preferences", "season", "product_keywords",
   "previous_buy"]

/-- The callback `field => data[field] && data[field].trim() !== ''`, as a boolean. -/
def fieldFilled (data : List (String × String)) (field : String) : Bool :=
  match Js.objGet data field with
  | none => false
  | some v => v != "" && Js.trim v != ""

/-- The method `validateForm()`: the new state of the app and the value returned. -/
def validateForm (app : App) (entries : List (String × String)) : App × Bool :=
  let data := fromEntries entries
  let isValid := requiredFields.all (fieldFilled data)
  ({ app with submitDisabled := !isValid }, isValid)

/-- The entries of a completely filled form. -/
def filledEntries : List (String × String) :=
  [("region", "North"), ("gender", "Female"), ("user_age_group", "25-34"),
   ("user_preferences", "sports"), ("season", "Summer"), ("product_keywords", "running shoes"),
   ("previous_buy", "yes")]

end ProductRecommendation

/-! ## Sales forecast: charts
Embedding of `AI-InternshipProject-No-01/frontend/forcast/frontend/scripts.js`. Chart
values are integers; they are carried into the chart, the only test on them is
truthiness. -/

namespace SalesForecast

/-- One entry of `data.actual_sales`. -/
structure ActualPoint where
  label : String
  Quantity_Sold : Int
deriving DecidableEq, Repr

/-- One entry of `data.forecast`. -/
structure ForecastPoint where
  month : String
  predicted_total : Int
deriving DecidableEq, Repr

/-- The data of the first chart: `labels` and the `data` arrays of the datasets
"Actual Sales" and "Predicted Sales" (`null` is `none`). -/
structure LineChart where
  labels : List String
  actual : List (Option Int)
  predicted : List (Option Int)
deriving DecidableEq, Repr

/-- The chart data `uploadFile` builds under `// Chart 1`. -/
def overallChart (actual_sales : List ActualPoint) (forecast : List ForecastPoint) :
    LineChart :=
  let actualLabels := actual_sales.map fun d => d.label
  let actualValues := actual_sales.map fun d => d.Quantity_Sold
  let predictedLabels := forecast.map fun f => f.month
  let predictedValues := forecast.map fun f => f.predicted_total
  { labels := actualLabels ++ predictedLabels,
    actual := actualValues.map some ++ [none, none, none],
    predicted := List.replicate actualValues.length none ++ predictedValues.map some }

/-- Two months of actual sales. -/
def twoMonths : List ActualPoint :=
  [{ label := "2024-01", Quantity_Sold := 120 }, { label := "2024-02", Quantity_Sold := 135 }]

/-- A forecast of six months. -/
def sixMonthForecast : List ForecastPoint :=
  [{ month := "2024-03", predicted_total := 140 }, { month := "2024-04", predicted_total := 142 },
   { month := "2024-05", predicted_total := 150 }, { month := "2024-06", predicted_total := 151 },
   { month := "2024-07", predicted_total := 149 }, { month := "2024-08", predicted_total := 160 }]

/-- A forecast of three months. -/
def threeMonthForecast : List ForecastPoint :=
  sixMonthForecast.take 3

/-! ### The grouped chart -/

/-- The pieces of `key.split('_')`, on characters. -/
def splitUnderscore : List Char → List (List Char)
  | [] => [[]]
  | c :: cs =>
    if c = '_' then [] :: splitUnderscore cs
    else
      match splitUnderscore cs with
      | [] => [[c]]
      | p :: ps => (c :: p) :: ps

/-- The array `key.split('_')`. -/
def split (key : String) : List String :=
  (splitUnderscore key.toList).map String.mk

/-- One element of the destructuring `[cat, gen, reg]`; a missing element is `undefined`,
which reads `undefined` in a template and as a property name. -/
def part (parts : List String) (i : Nat) : String :=
  (parts.get? i).getD "undefined"

/-- The value of `xLabel` chosen by the `if` chain on `filterType`. -/
def xLabel (filterType cat gen reg : String) : String :=
  if filterType = "category" then cat
  else if filterType = "gender" then gen
  else reg

/-- The value of `groupLabel` chosen by the `if` chain on `filterType`. -/
def groupLabel (filterType cat gen reg : String) : String :=
  if filterType = "category" then gen ++ "-" ++ reg
  else if filterType = "gender" then cat ++ "-" ++ reg
  else cat ++ "-" ++ gen

/-- The call `labelsSet.add(x)` on a set kept in insertion order. -/
def setAdd (set : List String) (x : String) : List String :=
  if x ∈ set then set else set ++ [x]

/-- The two accumulators of the first loop of `updateGroupedChart`. -/
structure Grouping where
  labelsSet : List String
  datasetsMap : List (String × List (String × Option Int))
deriving DecidableEq, Repr

/-- The body of `for (let key in data)`, for the property `key` with value `data[key]`
(a number, or `null`). -/
def groupKey (filterType : String) (st : Grouping) (entry : String × Option Int) : Grouping :=
  let parts := split entry.1
  let cat := part parts 0
  let gen := part parts 1
  let reg := part parts 2
  let x := xLabel filterType cat gen reg
  let g := groupLabel filterType cat gen reg
  let labelsSet := setAdd st.labelsSet x
  let datasetsMap :=
    if (Js.objGet st.datasetsMap g).isNone then Js.objSet st.datasetsMap g [] else st.datasetsMap
  let values := (Js.objGet datasetsMap g).getD []
  { labelsSet := labelsSet, datasetsMap := Js.objSet datasetsMap g (Js.objSet values x entry.2) }

/-- What a dataset holds at one position: a number, or the member of `Object.prototype`
a read of the values object found under the label. -/
inductive Cell where
  | number (n : Int)
  | inherited (name : String)
deriving DecidableEq, Repr

/-- The expression `values[label] || 0`: an own property gives its value, with `0` for
`null`; without an own property the read finds the inherited member when the label names
one, which is truthy, and `undefined` otherwise, which gives `0`. -/
def orZero (values : List (String × Option Int)) (label : String) : Cell :=
  match Js.objGet values label with
  | some v => Cell.number (v.getD 0)
  | none => if label ∈ Js.prototypeNames then Cell.inherited label else Cell.number 0

/-- The array `colors`. -/
def colors : List String :=
  ["rgba(75,192,192,0.8)", "rgba(255,99,132,0.8)", "rgba(255,206,86,0.8)",
   "rgba(54,162,235,0.8)"]

/-- One dataset of the grouped chart. -/
structure Dataset where
  label : String
  data : List Cell
  backgroundColor : String
deriving DecidableEq, Repr

/-- The second loop, `for (const [group, values] of Object.entries(datasetsMap))`, with its
counter `i`. -/
def buildDatasets (labels : List String) :
    Nat → List (String × List (String × Option Int)) → List Dataset
  | _, [] => []
  | i, (group, values) :: rest =>
    { label := group,
      data := labels.map fun label => orZero values label,
      backgroundColor := colors.getD (i % colors.length) "" } ::
      buildDatasets labels (i + 1) rest

/-- The `data` part of the configuration of the second chart. -/
structure BarChart where
  labels : List String
  datasets : List Dataset
deriving DecidableEq, Repr

/-- The function `updateGroupedChart()`, for the value of the `filterType` select and the
properties of `groupedDataGlobal` in enumeration order: the labels and datasets it hands to
`new Chart`. A group label always contains `-` and a label written into a values object
never contains `_`, so the reads and writes of `datasetsMap` and the writes of the values
objects never meet an inherited member; only the read `values[label]` can. -/
def updateGroupedChart (filterType : String) (data : List (String × Option Int)) : BarChart :=
  let st := data.foldl (groupKey filterType) { labelsSet := [], datasetsMap := [] }
  let labels := st.labelsSet
  { labels := labels, datasets := buildDatasets labels 0 st.datasetsMap }

/-- A part of a key that contains neither `_` nor `-`. -/
def CleanPart (s : String) : Prop :=
  '_' ∉ s.toList ∧ '-' ∉ s.toList

/-- The `xLabel` the loop computes for a key. -/
def keyX (filterType key : String) : String :=
  xLabel filterType (part (split key) 0) (part (split key) 1) (part (split key) 2)

/-- The `groupLabel` the loop computes for a key. -/
def keyG (filterType key : String) : String :=
  groupLabel filterType (part (split key) 0) (part (split key) 1) (part (split key) 2)

/-- The value stored for a label in the dataset of a group. -/
def cell (datasetsMap : List (String × List (String × Option Int))) (g l : String) :
    Option (Option Int) :=
  (Js.objGet datasetsMap g).bind fun values => Js.objGet values l

/-- What the first loop has established after the entries `done`. -/
structure Grouped (filterType : String) (done : List (String × Option Int)) (st : Grouping) :
    Prop where
  labels_nodup : st.labelsSet.Nodup
  mem_labels : ∀ l, l ∈ st.labelsSet ↔ ∃ e ∈ done, keyX filterType e.1 = l
  groups_nodup : (st.datasetsMap.map Prod.fst).Nodup
  mem_groups : ∀ g, g ∈ st.datasetsMap.map Prod.fst ↔ ∃ e ∈ done, keyG filterType e.1 = g
  cell_iff : ∀ g l w, cell st.datasetsMap g l = some w ↔
    ∃ e ∈ done, keyG filterType e.1 = g ∧ keyX filterType e.1 = l ∧ e.2 = w

/-- Grouped data in which one category is called `constructor`. -/
def constructorGrouped : List (String × Option Int) :=
  [("constructor_M_North", some 5), ("Shoes_F_South", some 7)]

/-- Grouped data of two categories, two genders and two regions; one value is `null`. -/
def sampleGrouped : List (String × Option Int) :=
  [("Shoes_M_North", some 40), ("Shoes_F_North", some 55), ("Bags_F_South", none),
   ("Bags_M_North", some 12)]

end SalesForecast

namespace FaceAttendance

/-! ## Lemmas on `drawBoxes` -/

theorem drawItem_painted (measure : String → String → Int) (c : Canvas) (item : Detection) :
    (drawItem measure c item).painted =
      c.painted ++
        [ Painted.strokeRoundRect (boxShape item) c.lineWidth (strokeColor item.name),
          Painted.fillRect
            (labelX c.width (measure c.font (labelOf item.name)) item.box.left - 4)
            (labelY item.box.top - 12) (measure c.font (labelOf item.name) + 8) 16
            (strokeColor item.name),
          Painted.fillText (labelOf item.name)
            (labelX c.width (measure c.font (labelOf item.name)) item.box.left)
            (labelY item.box.top) c.font "#0b1220" ] := by
  simp [drawItem, beginPath, roundRect, stroke, fillRect, fillText, boxShape]

theorem drawItem_frame (measure : String → String → Int) (c : Canvas) (item : Detection) :
    (drawItem measure c item).width = c.width ∧ (drawItem measure c item).height = c.height ∧
      (drawItem measure c item).lineWidth = c.lineWidth ∧
      (drawItem measure c item).font = c.font := by
  simp [drawItem, beginPath, roundRect, stroke, fillRect, fillText]

theorem foldl_drawItem_frame (measure : String → String → Int) (boxes : List Detection) :
    ∀ c : Canvas,
      (boxes.foldl (drawItem measure) c).width = c.width ∧
      (boxes.foldl (drawItem measure) c).height = c.height ∧
      (boxes.foldl (drawItem measure) c).lineWidth = c.lineWidth ∧
      (boxes.foldl (drawItem measure) c).font = c.font := by
  induction boxes with
  | nil => intro c; simp
  | cons item rest ih =>
    intro c
    obtain ⟨h1, h2, h3, h4⟩ := ih (drawItem measure c item)
    obtain ⟨g1, g2, g3, g4⟩ := drawItem_frame measure c item
    simp only [List.foldl_cons]
    exact ⟨h1.trans g1, h2.trans g2, h3.trans g3, h4.trans g4⟩

theorem foldl_drawItem_painted (measure : String → String → Int) (boxes : List Detection) :
    ∀ c : Canvas, c.lineWidth = 2 → c.font = "14px system-ui" →
      (boxes.foldl (drawItem measure) c).painted =
        c.painted ++ overlayOf measure c.width boxes := by
  induction boxes with
  | nil => intro c _ _; simp [overlayOf]
  | cons item rest ih =>
    intro c hl hf
    obtain ⟨g1, _, g3, g4⟩ := drawItem_frame measure c item
    simp only [List.foldl_cons]
    rw [ih (drawItem measure c item) (g3.trans hl) (g4.trans hf), drawItem_painted, g1, hl, hf]
    simp [overlayOf, itemOverlay, boxShape]

theorem clearRect_whole (c : Canvas) :
    clearRect c 0 0 c.width c.height = { c with painted := [] } := by
  simp [clearRect]

theorem drawBoxes_painted (measure : String → String → Int) (c : Canvas)
    (boxes : List Detection) :
    (drawBoxes measure c boxes).painted = overlayOf measure c.width boxes := by
  unfold drawBoxes
  rw [foldl_drawItem_painted measure boxes _ rfl rfl, clearRect_whole]
  simp

theorem drawBoxes_size (measure : String → String → Int) (c : Canvas)
    (boxes : List Detection) :
    (drawBoxes measure c boxes).width = c.width ∧
      (drawBoxes measure c boxes).height = c.height := by
  unfold drawBoxes
  obtain ⟨h1, h2, _, _⟩ := foldl_drawItem_frame measure boxes
    { ({ clearRect c 0 0 c.width c.height with lineWidth := 2 } : Canvas) with
      font := "14px system-ui" }
  rw [clearRect_whole] at h1 h2
  simp only [clearRect_whole]
  exact ⟨h1, h2⟩

theorem strokesOf_overlayOf (measure : String → String → Int) (w : Nat)
    (boxes : List Detection) :
    strokesOf (overlayOf measure w boxes) =
      boxes.map (fun item => (boxShape item, strokeColor item.name)) := by
  induction boxes with
  | nil => rfl
  | cons item rest ih =>
    simp only [overlayOf, strokesOf, List.flatMap_cons, List.filterMap_append, List.map_cons]
      at ih ⊢
    rw [ih]
    simp [itemOverlay, boxShape]

theorem textsOf_overlayOf (measure : String → String → Int) (w : Nat)
    (boxes : List Detection) :
    textsOf (overlayOf measure w boxes) =
      boxes.map (fun item =>
        (labelOf item.name,
          labelX w (measure "14px system-ui" (labelOf item.name)) item.box.left,
          labelY item.box.top)) := by
  induction boxes with
  | nil => rfl
  | cons item rest ih =>
    simp only [overlayOf, textsOf, List.flatMap_cons, List.filterMap_append, List.map_cons]
      at ih ⊢
    rw [ih]
    simp [itemOverlay]

theorem labelX_bounds (w tw l : Int) :
    0 ≤ labelX w tw l ∧ (0 ≤ w - tw - 8 → labelX w tw l ≤ w - tw - 8) ∧
      (w - tw - 8 < 0 → labelX w tw l = 0) ∧ (4 ≤ w - tw - 8 → -2 ≤ l → 4 ≤ labelX w tw l) := by
  unfold labelX
  refine ⟨le_max_left _ _, ?_, ?_, ?_⟩
  · intro h
    exact max_le h (min_le_left _ _)
  · intro h
    exact max_eq_left ((min_le_left _ _).trans h.le)
  · intro h1 h2
    exact le_max_of_le_right (le_min h1 (by omega))

theorem strokeColor_cases (name : Option String) :
    (strokeColor name = "#ef4444" ↔ name = none ∨ name = some "" ∨ name = some "Unknown") ∧
      (strokeColor name = "#22c55e" ↔
        ¬ (name = none ∨ name = some "" ∨ name = some "Unknown")) := by
  cases name with
  | none => simp [strokeColor, truthy]
  | some s =>
    by_cases h1 : s = ""
    · subst h1; simp [strokeColor, truthy]
    · by_cases h2 : s = "Unknown"
      · subst h2; simp [strokeColor, truthy]
      · simp [strokeColor, truthy, h1, h2]

theorem labelOf_unknown_iff (name : Option String) :
    labelOf name = "Unknown" ↔ name = none ∨ name = some "" ∨ name = some "Unknown" := by
  cases name with
  | none => simp [labelOf]
  | some s =>
    by_cases h1 : s = ""
    · subst h1; simp [labelOf, truthy]
    · simp [labelOf, truthy, h1]

/-! ## The overlay renderer: label placement, colours, clearing -/

/-- C1, as stated, fails: on the default 300 pixel wide canvas a label measured at 320
pixels is drawn at `labelX = 0`, which is above `canvasWidth - textWidth - 8 = -28`. -/
theorem drawBoxes_labelX_exceeds_bound :
    ("Bartholomew Featherstonehaugh-Cholmondel", (0 : Int), (32 : Int)) ∈
        textsOf (drawBoxes monoMeasure (blankCanvas 300 150) [longNameDetection]).painted ∧
      monoMeasure "14px system-ui" "Bartholomew Featherstonehaugh-Cholmondel" = 320 ∧
      ¬ ((0 : Int) ≤ 0 ∧ (0 : Int) ≤ 300 - 320 - 8) := by
  decide

/-- C1 (amended): every label `drawBoxes` draws has `labelX ≥ 0`; it has
`labelX ≤ canvasWidth - textWidth - 8` whenever that bound is not negative, and
`labelX = 0` when the bound is negative. -/
theorem drawBoxes_labelX_clamped (measure : String → String → Int) (c : Canvas)
    (boxes : List Detection) (text : String) (x y : Int)
    (hmem : (text, x, y) ∈ textsOf (drawBoxes measure c boxes).painted) :
    0 ≤ x ∧
      (0 ≤ (c.width : Int) - measure "14px system-ui" text - 8 →
        x ≤ (c.width : Int) - measure "14px system-ui" text - 8) ∧
      ((c.width : Int) - measure "14px system-ui" text - 8 < 0 → x = 0) := by
  rw [drawBoxes_painted, textsOf_overlayOf, List.mem_map] at hmem
  obtain ⟨item, _, heq⟩ := hmem
  simp only [Prod.mk.injEq] at heq
  obtain ⟨ht, hx, _⟩ := heq
  subst ht hx
  obtain ⟨h1, h2, h3, _⟩ :=
    labelX_bounds c.width (measure "14px system-ui" (labelOf item.name)) item.box.left
  exact ⟨h1, h2, h3⟩

/-- C1 (amended), at a 640 pixel wide canvas and the label "Alice" of a box starting at
`left = 10`: the label is drawn at `x = 16`, between `0` and `640 - 40 - 8`. -/
theorem drawBoxes_labelX_clamped_witness :
    ("Alice", (16 : Int), (32 : Int)) ∈
        textsOf (drawBoxes monoMeasure (blankCanvas 640 480) [tightDetection]).painted ∧
      ((0 : Int) ≤ 16 ∧
        (0 ≤ ((blankCanvas 640 480).width : Int) - monoMeasure "14px system-ui" "Alice" - 8 →
          (16 : Int) ≤ ((blankCanvas 640 480).width : Int)
            - monoMeasure "14px system-ui" "Alice" - 8) ∧
        (((blankCanvas 640 480).width : Int) - monoMeasure "14px system-ui" "Alice" - 8 < 0 →
          (16 : Int) = 0)) :=
  ⟨by decide,
    drawBoxes_labelX_clamped monoMeasure (blankCanvas 640 480) [tightDetection] "Alice" 16 32
      (by decide)⟩

/-- C2, as stated, fails on both sides: a 328 pixel wide label background on a 300 pixel
wide canvas starts at `-4` and ends at `324`; a box starting at `left = -10` on a 640 pixel
wide canvas gets a background starting at `-4`; and on a 50 pixel wide canvas, which is
wider than the 48 pixel background but not by 4 pixels, the background starts at `-2`. -/
theorem drawBoxes_labelBackground_leaves_canvas :
    (Painted.fillRect (-4) 20 328 16 "#22c55e" ∈
        (drawBoxes monoMeasure (blankCanvas 300 150) [longNameDetection]).painted ∧
      ¬ ((0 : Int) ≤ -4) ∧ ¬ ((-4 : Int) + 328 ≤ 300)) ∧
    (Painted.fillRect (-4) 20 48 16 "#22c55e" ∈
        (drawBoxes monoMeasure (blankCanvas 640 480) [offFrameDetection]).painted ∧
      ¬ ((0 : Int) ≤ -4)) ∧
    (Painted.fillRect (-2) 20 48 16 "#22c55e" ∈
        (drawBoxes monoMeasure (blankCanvas 50 50) [tightDetection]).painted ∧
      ¬ ((0 : Int) ≤ -2)) := by
  decide

theorem backgroundsOf_overlayOf (measure : String → String → Int) (w : Nat)
    (boxes : List Detection) :
    backgroundsOf (overlayOf measure w boxes) =
      boxes.map (fun item =>
        (labelX w (measure "14px system-ui" (labelOf item.name)) item.box.left - 4,
          measure "14px system-ui" (labelOf item.name) + 8)) := by
  induction boxes with
  | nil => rfl
  | cons item rest ih =>
    simp only [overlayOf, backgroundsOf, List.flatMap_cons, List.filterMap_append,
      List.map_cons] at ih ⊢
    rw [ih]
    simp [itemOverlay]

/-- C2 (amended): `drawBoxes` fills one label background per detection, in order, from
`labelX - 4` with width `textWidth + 8`, where `textWidth` is the measured width of the
label of that detection. Its right edge is within the canvas whenever
`textWidth + 4 ≤ canvasWidth` (and at most at `canvasWidth - 4` when
`textWidth + 8 ≤ canvasWidth`); its left edge is `≥ 0` whenever
`textWidth + 12 ≤ canvasWidth` and the box of that detection has `left ≥ -2`, and then the
background lies within the canvas horizontally. -/
theorem drawBoxes_labelBackground (measure : String → String → Int) (c : Canvas)
    (boxes : List Detection) (k : Nat) (item : Detection) (hitem : boxes[k]? = some item) :
    ∃ x bw : Int,
      (backgroundsOf (drawBoxes measure c boxes).painted)[k]? = some (x, bw) ∧
      bw = measure "14px system-ui" (labelOf item.name) + 8 ∧
      (measure "14px system-ui" (labelOf item.name) + 4 ≤ c.width → x + bw ≤ c.width) ∧
      (measure "14px system-ui" (labelOf item.name) + 8 ≤ c.width →
        x + bw ≤ (c.width : Int) - 4) ∧
      (measure "14px system-ui" (labelOf item.name) + 12 ≤ c.width → -2 ≤ item.box.left →
        0 ≤ x ∧ x + bw ≤ c.width) := by
  refine ⟨labelX c.width (measure "14px system-ui" (labelOf item.name)) item.box.left - 4,
    measure "14px system-ui" (labelOf item.name) + 8, ?_, rfl, ?_⟩
  · rw [drawBoxes_painted, backgroundsOf_overlayOf, List.getElem?_map, hitem]
    rfl
  · obtain ⟨_, h2, h3, h4⟩ :=
      labelX_bounds c.width (measure "14px system-ui" (labelOf item.name)) item.box.left
    refine ⟨fun hfit => ?_, fun hfit => ?_, fun hroom hleft => ?_⟩
    · by_cases hb : 0 ≤ (c.width : Int) - measure "14px system-ui" (labelOf item.name) - 8
      · have := h2 hb
        omega
      · have := h3 (by omega)
        omega
    · have := h2 (by omega)
      omega
    · have := h2 (by omega)
      have := h4 (by omega) hleft
      omega

/-- C2 (amended), at the second of two detections on a 640 pixel wide canvas: the first box
starts at `left = -10`, the second, labelled "Alice", at `left = 10`; the background of the
second spans `12 .. 60`, whatever the first one does. -/
theorem drawBoxes_labelBackground_witness :
    [offFrameDetection, tightDetection][1]? = some tightDetection ∧
      monoMeasure "14px system-ui" (labelOf tightDetection.name) + 12 ≤
        (blankCanvas 640 480).width ∧
      -2 ≤ tightDetection.box.left ∧
      (backgroundsOf
          (drawBoxes monoMeasure (blankCanvas 640 480)
            [offFrameDetection, tightDetection]).painted)[1]? = some (12, 48) ∧
      ∃ x bw : Int,
        (backgroundsOf
            (drawBoxes monoMeasure (blankCanvas 640 480)
              [offFrameDetection, tightDetection]).painted)[1]? = some (x, bw) ∧
        0 ≤ x ∧ x + bw ≤ (blankCanvas 640 480).width :=
  ⟨rfl, by decide, by decide, by decide,
    (drawBoxes_labelBackground monoMeasure (blankCanvas 640 480)
        [offFrameDetection, tightDetection] 1 tightDetection rfl).elim
      fun x h => h.elim fun bw hb =>
        ⟨x, bw, hb.1, hb.2.2.2.2 (by decide) (by decide)⟩⟩

/-- C3, as stated, fails: a detection whose name is the empty string has a label that is
neither absent nor the sentinel, and its box is stroked in the warning colour. -/
theorem drawBoxes_empty_name_warning :
    emptyNameDetection.name ≠ none ∧ emptyNameDetection.name ≠ some "Unknown" ∧
      strokesOf (drawBoxes monoMeasure (blankCanvas 640 480) [emptyNameDetection]).painted =
        [(boxShape emptyNameDetection, "#ef4444")] := by
  decide

/-- C3 (amended): `drawBoxes` strokes one box per detection, in the warning colour exactly
when the name is absent, the empty string or the sentinel "Unknown" (that is, exactly when
the label drawn is "Unknown"), and in the affirmative colour for every other name. -/
theorem drawBoxes_strokeColor (measure : String → String → Int) (c : Canvas)
    (boxes : List Detection) :
    strokesOf (drawBoxes measure c boxes).painted =
        boxes.map (fun item => (boxShape item, strokeColor item.name)) ∧
      ∀ name : Option String,
        (strokeColor name = "#ef4444" ↔
          name = none ∨ name = some "" ∨ name = some "Unknown") ∧
        (strokeColor name = "#22c55e" ↔
          ¬ (name = none ∨ name = some "" ∨ name = some "Unknown")) ∧
        (strokeColor name = "#ef4444" ↔ labelOf name = "Unknown") := by
  refine ⟨by rw [drawBoxes_painted, strokesOf_overlayOf], fun name => ?_⟩
  obtain ⟨h1, h2⟩ := strokeColor_cases name
  exact ⟨h1, h2, h1.trans (labelOf_unknown_iff name).symm⟩

/-- C4: `drawBoxes` draws the label of each detection at `y = labelY top`, which is
`top - 8` when `top - 8 ≥ 0` and `top + 16` otherwise, and is non-negative whenever
`top ≥ 0`. -/
theorem drawBoxes_labelY (measure : String → String → Int) (c : Canvas)
    (boxes : List Detection) :
    (textsOf (drawBoxes measure c boxes).painted).map (fun t => t.2.2) =
        boxes.map (fun item => labelY item.box.top) ∧
      ∀ t : Int, (0 ≤ t - 8 → labelY t = t - 8) ∧ (t - 8 < 0 → labelY t = t + 16) ∧
        (0 ≤ t → 0 ≤ labelY t) := by
  refine ⟨?_, fun t => ?_⟩
  · rw [drawBoxes_painted, textsOf_overlayOf, List.map_map]
    rfl
  · unfold labelY
    refine ⟨fun h => ?_, fun h => ?_, fun h => ?_⟩
    · rw [if_neg (by omega)]
    · rw [if_pos h]
    · split <;> omega

/-- C4, at `top = 10` (label above the box, at `y = 2`) and at `top = 5` (label flipped
below the top edge, at `y = 21`). -/
theorem drawBoxes_labelY_witness :
    labelY 10 = 10 - 8 ∧ labelY 5 = 5 + 16 ∧ 0 ≤ labelY 5 :=
  ⟨((drawBoxes_labelY monoMeasure (blankCanvas 640 480) []).2 10).1 (by decide),
    ((drawBoxes_labelY monoMeasure (blankCanvas 640 480) []).2 5).2.1 (by decide),
    ((drawBoxes_labelY monoMeasure (blankCanvas 640 480) []).2 5).2.2 (by decide)⟩

/-- C5: `drawBoxes` starts by clearing the rectangle `(0, 0, width, height)`, which wipes
everything painted before; what is on the canvas afterwards is the drawing of the given
detections only, the same as on a fresh canvas of that size, and a second call leaves
exactly the drawing of its own list. -/
theorem drawBoxes_replaces (measure : String → String → Int) (c : Canvas)
    (boxes later : List Detection) :
    (clearRect c 0 0 c.width c.height).painted = [] ∧
      (drawBoxes measure c boxes).painted = overlayOf measure c.width boxes ∧
      (drawBoxes measure c boxes).painted =
        (drawBoxes measure (blankCanvas c.width c.height) boxes).painted ∧
      (drawBoxes measure (drawBoxes measure c boxes) later).painted =
        (drawBoxes measure (blankCanvas c.width c.height) later).painted := by
  refine ⟨by rw [clearRect_whole], drawBoxes_painted measure c boxes, ?_, ?_⟩
  · rw [drawBoxes_painted, drawBoxes_painted]
    rfl
  · rw [drawBoxes_painted, drawBoxes_painted, (drawBoxes_size measure c boxes).1]
    rfl

/-! ## The live-recognition loop -/

theorem captureAndRecognize_zero (measure : String → String → Int) (s : Page) (reply : Reply)
    (h : s.videoWidth = 0) : captureAndRecognize measure s reply = s := by
  simp [captureAndRecognize, h]

theorem captureAndRecognize_requests (measure : String → String → Int) (s : Page)
    (reply : Reply) (h : s.videoWidth ≠ 0) :
    (captureAndRecognize measure s reply).requests =
      s.requests ++ [{ width := s.videoWidth, height := s.videoHeight }] := by
  rcases reply with e | ⟨success, results⟩
  · simp [captureAndRecognize, recognizeBody, postJSON, h, bind, Except.bind]
  · cases success <;>
      simp [captureAndRecognize, recognizeBody, postJSON, h, bind, Except.bind, pure,
        Except.pure]

theorem captureAndRecognize_control (measure : String → String → Int) (s : Page)
    (reply : Reply) :
    (captureAndRecognize measure s reply).timers = s.timers ∧
      (captureAndRecognize measure s reply).recognizeIntervalId = s.recognizeIntervalId ∧
      (captureAndRecognize measure s reply).nextHandle = s.nextHandle ∧
      (captureAndRecognize measure s reply).liveStream = s.liveStream ∧
      (captureAndRecognize measure s reply).stopped = s.stopped := by
  by_cases h : s.videoWidth = 0
  · simp [captureAndRecognize_zero measure s reply h]
  · rcases reply with e | ⟨success, results⟩
    · simp [captureAndRecognize, recognizeBody, postJSON, h, bind, Except.bind]
    · cases success <;>
        simp [captureAndRecognize, recognizeBody, postJSON, h, bind, Except.bind, pure,
          Except.pure]

theorem resizeOverlayToVideo_control (s : Page) :
    (resizeOverlayToVideo s).timers = s.timers ∧
      (resizeOverlayToVideo s).recognizeIntervalId = s.recognizeIntervalId ∧
      (resizeOverlayToVideo s).nextHandle = s.nextHandle := by
  unfold resizeOverlayToVideo
  split <;> simp

theorem startCatch_control (s : Page) (e : JsError) :
    (startCatch s e).timers = s.timers ∧
      (startCatch s e).recognizeIntervalId = s.recognizeIntervalId ∧
      (startCatch s e).nextHandle = s.nextHandle := by
  simp [startCatch]

theorem stopTracks_control (s : Page) :
    (stopTracks s).timers = s.timers ∧
      (stopTracks s).recognizeIntervalId = s.recognizeIntervalId ∧
      (stopTracks s).nextHandle = s.nextHandle := by
  unfold stopTracks
  split <;> simp

theorem timerTracked_of_control {s t : Page} (h : TimerTracked s) (h1 : t.timers = s.timers)
    (h2 : t.recognizeIntervalId = s.recognizeIntervalId) (h3 : t.nextHandle = s.nextHandle) :
    TimerTracked t := by
  unfold TimerTracked at h ⊢
  rw [h1, h2, h3]
  exact h

theorem clearInterval_single (h : Nat) : clearInterval [h] h = [] := by
  simp [clearInterval]

theorem startLiveCam_failed_control (s : Page) (o : StartOutcome)
    (ho : o ≠ StartOutcome.started) :
    (startLiveCam s o).timers = s.timers ∧
      (startLiveCam s o).recognizeIntervalId = s.recognizeIntervalId ∧
      (startLiveCam s o).nextHandle = s.nextHandle := by
  obtain ⟨h1, h2, h3⟩ := stopTracks_control s
  cases o with
  | acquireFailed e => simp [startLiveCam, startCatch, h1, h2, h3]
  | playFailed e => simp [startLiveCam, startCatch, h1, h2, h3]
  | started => exact absurd rfl ho

theorem startLiveCam_started_control (s : Page) (h : TimerTracked s) :
    (startLiveCam s StartOutcome.started).timers = [s.nextHandle] ∧
      (startLiveCam s StartOutcome.started).recognizeIntervalId = some s.nextHandle ∧
      (startLiveCam s StartOutcome.started).nextHandle = s.nextHandle + 1 := by
  obtain ⟨h1, h2, h3⟩ := stopTracks_control s
  obtain ⟨_, h | ⟨k, hk, _, ht, hid⟩⟩ := h
  · simp [startLiveCam, handleSet, h1, h2, h3, h.1, h.2]
  · have hk0 : k ≠ 0 := by omega
    simp [startLiveCam, handleSet, h1, h2, h3, ht, hid, hk0, clearInterval_single]

theorem stopLiveCam_control (s : Page) (h : TimerTracked s) :
    (stopLiveCam s).timers = [] ∧ (stopLiveCam s).recognizeIntervalId = none ∧
      (stopLiveCam s).nextHandle = s.nextHandle ∧ (stopLiveCam s).liveStream = none := by
  obtain ⟨_, h | ⟨k, hk, _, ht, hid⟩⟩ := h
  · unfold stopLiveCam
    cases hl : s.liveStream <;> simp [handleSet, h.1, h.2, hl]
  · have hk0 : k ≠ 0 := by omega
    unfold stopLiveCam
    cases hl : s.liveStream <;> simp [handleSet, ht, hid, hk0, hl, clearInterval_single]

theorem step_timerTracked (measure : String → String → Int) (s : Page) (ev : Event)
    (h : TimerTracked s) : TimerTracked (step measure s ev) := by
  cases ev with
  | start o =>
    by_cases ho : o = StartOutcome.started
    · subst ho
      obtain ⟨h1, h2, h3⟩ := startLiveCam_started_control s h
      refine ⟨by simp [step, h3], Or.inr ⟨s.nextHandle, h.1, ?_, ?_, ?_⟩⟩
      · simp [step, h3]
      · simpa [step] using h1
      · simpa [step] using h2
    · obtain ⟨h1, h2, h3⟩ := startLiveCam_failed_control s o ho
      exact timerTracked_of_control h h1 h2 h3
  | stop =>
    obtain ⟨h1, h2, h3, _⟩ := stopLiveCam_control s h
    exact ⟨by simpa [step, h3] using h.1, Or.inl ⟨by simpa [step] using h1,
      by simpa [step] using h2⟩⟩
  | tick reply =>
    by_cases ht : s.timers = []
    · simpa [step, ht] using h
    · obtain ⟨h1, h2, h3, _, _⟩ := captureAndRecognize_control measure s reply
      simp only [step, ht, if_false]
      exact timerTracked_of_control h h1 h2 h3
  | loadedMetadata w hgt =>
    simp only [step]
    split
    · obtain ⟨h1, h2, h3⟩ :=
        resizeOverlayToVideo_control { s with videoWidth := w, videoHeight := hgt }
      exact timerTracked_of_control h h1 h2 h3
    · exact timerTracked_of_control h rfl rfl rfl
  | windowResize =>
    simp only [step]
    split
    · exact h
    · obtain ⟨h1, h2, h3⟩ := resizeOverlayToVideo_control s
      exact timerTracked_of_control h h1 h2 h3

theorem run_timerTracked (measure : String → String → Int) (events : List Event) :
    ∀ s : Page, TimerTracked s → TimerTracked (run measure s events) := by
  induction events with
  | nil => intro s h; exact h
  | cons ev rest ih =>
    intro s h
    exact ih (step measure s ev) (step_timerTracked measure s ev h)

theorem initialPage_timerTracked (w h : Nat) : TimerTracked (initialPage w h) :=
  ⟨Nat.one_pos, Or.inl ⟨rfl, rfl⟩⟩

/-- C6 fails on the code: after a start, a 640 by 480 video and a second start whose
camera acquisition is refused, the tracks of the stream are stopped, so the stream is
inactive, but the interval handle is still scheduled; its tick fires and sends a request
to the recognition endpoint. -/
theorem tick_after_refused_restart_sends :
    streamActive (run monoMeasure (initialPage 300 150) failedRestart) = false ∧
      (run monoMeasure (initialPage 300 150) failedRestart).timers = [1] ∧
      (run monoMeasure (initialPage 300 150) failedRestart).requests = [] ∧
      (step monoMeasure (run monoMeasure (initialPage 300 150) failedRestart)
          (Event.tick (Reply.json oneFaceAnswer))).requests =
        [{ width := 640, height := 480 }] := by
  decide

/-- C7: when the live video reports zero width, `captureAndRecognize` returns at once: the
page is unchanged, so no frame is encoded, no request is sent, and the overlay and the
recognized-names list stay as they were. -/
theorem captureAndRecognize_zero_width (measure : String → String → Int) (s : Page)
    (reply : Reply) (h : s.videoWidth = 0) :
    captureAndRecognize measure s reply = s ∧
      (captureAndRecognize measure s reply).encoded = s.encoded ∧
      (captureAndRecognize measure s reply).requests = s.requests ∧
      (captureAndRecognize measure s reply).overlay = s.overlay ∧
      (captureAndRecognize measure s reply).recognizedList = s.recognizedList := by
  rw [captureAndRecognize_zero measure s reply h]
  exact ⟨rfl, rfl, rfl, rfl, rfl⟩

/-- C7, at the page before any video size is known, with an answer that would draw a box. -/
theorem captureAndRecognize_zero_width_witness :
    (initialPage 300 150).videoWidth = 0 ∧
      captureAndRecognize monoMeasure (initialPage 300 150) (Reply.json oneFaceAnswer) =
        initialPage 300 150 :=
  ⟨rfl,
    (captureAndRecognize_zero_width monoMeasure (initialPage 300 150) (Reply.json oneFaceAnswer)
      rfl).1⟩

/-- C8 fails on the code: after a successful start, a second start whose camera
acquisition is refused stops the tracks of the running stream and leaves the interval
handle scheduled, so the timer is set while no live stream is active. -/
theorem failed_restart_leaves_timer :
    (run monoMeasure (initialPage 300 150) failedRestart).recognizeIntervalId = some 1 ∧
      (run monoMeasure (initialPage 300 150) failedRestart).timers = [1] ∧
      (run monoMeasure (initialPage 300 150) failedRestart).liveStream = some 1 ∧
      (run monoMeasure (initialPage 300 150) failedRestart).stopped = [1] ∧
      streamActive (run monoMeasure (initialPage 300 150) failedRestart) = false := by
  decide

/-- C9: when `getUserMedia` rejects, `startLiveCam` alerts the user and creates no interval
handle: the scheduled handles, the handle global and the next free handle are as before,
and if nothing was scheduled before, a tick does nothing afterwards. -/
theorem startLiveCam_acquire_failed (measure : String → String → Int) (s : Page)
    (e : JsError) (reply : Reply) :
    (startLiveCam s (StartOutcome.acquireFailed e)).alerts = s.alerts ++ [cameraAlert e] ∧
      (startLiveCam s (StartOutcome.acquireFailed e)).timers = s.timers ∧
      (startLiveCam s (StartOutcome.acquireFailed e)).recognizeIntervalId =
        s.recognizeIntervalId ∧
      (startLiveCam s (StartOutcome.acquireFailed e)).nextHandle = s.nextHandle ∧
      (s.timers = [] →
        step measure (startLiveCam s (StartOutcome.acquireFailed e)) (Event.tick reply) =
          startLiveCam s (StartOutcome.acquireFailed e)) := by
  obtain ⟨h1, h2, h3⟩ :=
    startLiveCam_failed_control s (StartOutcome.acquireFailed e) (by simp)
  refine ⟨?_, h1, h2, h3, fun hnone => ?_⟩
  · unfold startLiveCam stopTracks
    cases s.liveStream <;> simp [startCatch]
  · simp [step, h1, hnone]

/-- C9, at the initial page with the camera permission denied: one alert, nothing
scheduled, and a tick changes nothing. -/
theorem startLiveCam_acquire_failed_witness :
    (initialPage 300 150).timers = [] ∧
      (startLiveCam (initialPage 300 150) (StartOutcome.acquireFailed permissionDenied)).alerts =
        [cameraAlert permissionDenied] ∧
      step monoMeasure
          (startLiveCam (initialPage 300 150) (StartOutcome.acquireFailed permissionDenied))
          (Event.tick (Reply.json oneFaceAnswer)) =
        startLiveCam (initialPage 300 150) (StartOutcome.acquireFailed permissionDenied) :=
  ⟨rfl,
    (startLiveCam_acquire_failed monoMeasure (initialPage 300 150) permissionDenied
      (Reply.json oneFaceAnswer)).1,
    (startLiveCam_acquire_failed monoMeasure (initialPage 300 150) permissionDenied
      (Reply.json oneFaceAnswer)).2.2.2.2 rfl⟩

/-- C10: a tick whose request fails in transport, or whose answer has no success flag,
runs to completion with the interval handle, the scheduled handles and the live stream
reference unchanged; a transport error ends in the console log of the `catch`; and while a
handle is scheduled the next tick runs `captureAndRecognize` again. -/
theorem captureAndRecognize_failure_keeps_loop (measure : String → String → Int) (s : Page)
    (reply later : Reply) (hfail : reply.isFailure = true) :
    (captureAndRecognize measure s reply).recognizeIntervalId = s.recognizeIntervalId ∧
      (captureAndRecognize measure s reply).timers = s.timers ∧
      (captureAndRecognize measure s reply).liveStream = s.liveStream ∧
      streamActive (captureAndRecognize measure s reply) = streamActive s ∧
      (∀ e, reply = Reply.failed e → s.videoWidth ≠ 0 →
        (captureAndRecognize measure s reply).consoleErrors =
          s.consoleErrors ++ [{ tag := "recognize error", error := e }]) ∧
      (s.timers ≠ [] →
        step measure (captureAndRecognize measure s reply) (Event.tick later) =
          captureAndRecognize measure (captureAndRecognize measure s reply) later) := by
  obtain ⟨h1, h2, _, h4, h5⟩ := captureAndRecognize_control measure s reply
  refine ⟨h2, h1, h4, ?_, ?_, fun hne => ?_⟩
  · simp [streamActive, h4, h5]
  · intro e he hw
    subst he
    simp [captureAndRecognize, recognizeBody, postJSON, hw, bind, Except.bind]
  · simp [step, h1, hne]

/-- C10, at a streaming page with a 640 by 480 video: after a tick that fails in transport
and after a tick answered without the success flag, handle 1 is still scheduled and held by
the global, and the next tick runs. -/
theorem captureAndRecognize_failure_keeps_loop_witness :
    (Reply.failed networkError).isFailure = true ∧
      (Reply.json refusedAnswer).isFailure = true ∧
      (captureAndRecognize monoMeasure streamingPage (Reply.failed networkError)).timers =
        streamingPage.timers ∧
      (captureAndRecognize monoMeasure streamingPage (Reply.json refusedAnswer)).timers =
        streamingPage.timers ∧
      step monoMeasure (captureAndRecognize monoMeasure streamingPage (Reply.failed networkError))
          (Event.tick (Reply.json oneFaceAnswer)) =
        captureAndRecognize monoMeasure
          (captureAndRecognize monoMeasure streamingPage (Reply.failed networkError))
          (Reply.json oneFaceAnswer) :=
  ⟨rfl, rfl,
    (captureAndRecognize_failure_keeps_loop monoMeasure streamingPage (Reply.failed networkError)
      (Reply.json oneFaceAnswer) rfl).2.1,
    (captureAndRecognize_failure_keeps_loop monoMeasure streamingPage (Reply.json refusedAnswer)
      (Reply.json oneFaceAnswer) rfl).2.1,
    (captureAndRecognize_failure_keeps_loop monoMeasure streamingPage (Reply.failed networkError)
      (Reply.json oneFaceAnswer) rfl).2.2.2.2.2 (by decide)⟩

/-! ## The recognition exchange and what a tick shows -/

theorem captureAndRecognize_refused (measure : String → String → Int) (s : Page)
    (resp : Response) (hw : s.videoWidth ≠ 0) (hs : resp.success = false) :
    captureAndRecognize measure s (Reply.json resp) =
      { s with encoded := s.encoded ++ [{ width := s.videoWidth, height := s.videoHeight }],
               requests := s.requests ++ [{ width := s.videoWidth, height := s.videoHeight }] } := by
  simp [captureAndRecognize, recognizeBody, postJSON, hw, hs, bind, Except.bind, pure,
    Except.pure]

theorem captureAndRecognize_transport (measure : String → String → Int) (s : Page)
    (e : JsError) (hw : s.videoWidth ≠ 0) :
    captureAndRecognize measure s (Reply.failed e) =
      { s with encoded := s.encoded ++ [{ width := s.videoWidth, height := s.videoHeight }],
               requests := s.requests ++ [{ width := s.videoWidth, height := s.videoHeight }],
               consoleErrors := s.consoleErrors ++ [{ tag := "recognize error", error := e }] } := by
  simp [captureAndRecognize, recognizeBody, postJSON, hw, bind, Except.bind]

theorem captureAndRecognize_success (measure : String → String → Int) (s : Page)
    (resp : Response) (hw : s.videoWidth ≠ 0) (hs : resp.success = true) :
    captureAndRecognize measure s (Reply.json resp) =
      { s with encoded := s.encoded ++ [{ width := s.videoWidth, height := s.videoHeight }],
               requests := s.requests ++ [{ width := s.videoWidth, height := s.videoHeight }],
               overlay := drawBoxes measure s.overlay (resp.results.getD []),
               recognizedList := (resp.results.getD []).map listItemOf } := by
  simp [captureAndRecognize, recognizeBody, postJSON, hw, hs, bind, Except.bind, pure,
    Except.pure]

/-- C11, as stated, fails: an answer whose success flag is not set comes back from
`postJSON` as an ordinary value and the tick logs nothing for it, while a transport error
is logged by the `catch`. -/
theorem refused_answer_not_logged :
    postJSON (Reply.json refusedAnswer) = Except.ok refusedAnswer ∧
      (captureAndRecognize monoMeasure streamingPage (Reply.json refusedAnswer)).consoleErrors =
        [] ∧
      (captureAndRecognize monoMeasure streamingPage (Reply.json refusedAnswer)).alerts = [] ∧
      (captureAndRecognize monoMeasure streamingPage (Reply.failed networkError)).consoleErrors =
        [{ tag := "recognize error", error := networkError }] :=
  ⟨rfl, by decide, by decide, by decide⟩

/-- C11 (amended): a recognition exchange that ends in a transport error is signalled to
the caller as an error, and the caller logs it with `console.error`; an answer whose
success flag is not set is returned as an ordinary value, raises no error and is not
logged. -/
theorem recognition_failure_signalling (measure : String → String → Int) (s : Page)
    (hw : s.videoWidth ≠ 0) :
    (∀ e : JsError,
        postJSON (Reply.failed e) = Except.error e ∧
        (captureAndRecognize measure s (Reply.failed e)).consoleErrors =
          s.consoleErrors ++ [{ tag := "recognize error", error := e }]) ∧
      (∀ resp : Response, resp.success = false →
        postJSON (Reply.json resp) = Except.ok resp ∧
        (captureAndRecognize measure s (Reply.json resp)).consoleErrors = s.consoleErrors ∧
        (captureAndRecognize measure s (Reply.json resp)).alerts = s.alerts) := by
  refine ⟨fun e => ⟨rfl, ?_⟩, fun resp hs => ⟨rfl, ?_, ?_⟩⟩
  · rw [captureAndRecognize_transport measure s e hw]
  · rw [captureAndRecognize_refused measure s resp hw hs]
  · rw [captureAndRecognize_refused measure s resp hw hs]

/-- C11 (amended), at a streaming page with a 640 by 480 video: the transport error is
logged, the refused answer is not. -/
theorem recognition_failure_signalling_witness :
    streamingPage.videoWidth ≠ 0 ∧
      (captureAndRecognize monoMeasure streamingPage (Reply.failed networkError)).consoleErrors =
        streamingPage.consoleErrors ++ [{ tag := "recognize error", error := networkError }] ∧
      (captureAndRecognize monoMeasure streamingPage (Reply.json refusedAnswer)).consoleErrors =
        streamingPage.consoleErrors :=
  ⟨by decide,
    ((recognition_failure_signalling monoMeasure streamingPage (by decide)).1 networkError).2,
    ((recognition_failure_signalling monoMeasure streamingPage (by decide)).2 refusedAnswer
      rfl).2.1⟩

/-- C12: after a tick that ends in a transport error or in an answer without the success
flag, the overlay and the recognized-names list are what they were before the tick. -/
theorem captureAndRecognize_failure_keeps_view (measure : String → String → Int) (s : Page)
    (reply : Reply) (hfail : reply.isFailure = true) :
    (captureAndRecognize measure s reply).overlay = s.overlay ∧
      (captureAndRecognize measure s reply).recognizedList = s.recognizedList := by
  by_cases hw : s.videoWidth = 0
  · rw [captureAndRecognize_zero measure s reply hw]
    exact ⟨rfl, rfl⟩
  · cases reply with
    | failed e =>
      rw [captureAndRecognize_transport measure s e hw]
      exact ⟨rfl, rfl⟩
    | json resp =>
      have hs : resp.success = false := by simpa [Reply.isFailure] using hfail
      rw [captureAndRecognize_refused measure s resp hw hs]
      exact ⟨rfl, rfl⟩

/-- C12, at a page whose overlay and list show one face: a failed tick and a refused tick
leave both as they are. -/
theorem captureAndRecognize_failure_keeps_view_witness :
    (Reply.failed networkError).isFailure = true ∧
      (captureAndRecognize monoMeasure
          (captureAndRecognize monoMeasure streamingPage (Reply.json oneFaceAnswer))
          (Reply.failed networkError)).overlay =
        (captureAndRecognize monoMeasure streamingPage (Reply.json oneFaceAnswer)).overlay ∧
      (captureAndRecognize monoMeasure
          (captureAndRecognize monoMeasure streamingPage (Reply.json oneFaceAnswer))
          (Reply.json refusedAnswer)).recognizedList =
        (captureAndRecognize monoMeasure streamingPage (Reply.json oneFaceAnswer)).recognizedList :=
  ⟨rfl,
    (captureAndRecognize_failure_keeps_view monoMeasure
      (captureAndRecognize monoMeasure streamingPage (Reply.json oneFaceAnswer))
      (Reply.failed networkError) rfl).1,
    (captureAndRecognize_failure_keeps_view monoMeasure
      (captureAndRecognize monoMeasure streamingPage (Reply.json oneFaceAnswer))
      (Reply.json refusedAnswer) rfl).2⟩

/-- C13: an answer with the success flag set and no detection list is handled exactly like
one with an empty list, as zero faces: the overlay is cleared and nothing is drawn, the
recognized-names list is emptied, and nothing is logged or alerted. -/
theorem captureAndRecognize_no_faces (measure : String → String → Int) (s : Page)
    (hw : s.videoWidth ≠ 0) :
    captureAndRecognize measure s (Reply.json absentListAnswer) =
        captureAndRecognize measure s (Reply.json emptyListAnswer) ∧
      (captureAndRecognize measure s (Reply.json absentListAnswer)).overlay.painted = [] ∧
      (captureAndRecognize measure s (Reply.json absentListAnswer)).recognizedList = [] ∧
      (captureAndRecognize measure s (Reply.json absentListAnswer)).consoleErrors =
        s.consoleErrors ∧
      (captureAndRecognize measure s (Reply.json absentListAnswer)).alerts = s.alerts := by
  rw [captureAndRecognize_success measure s absentListAnswer hw rfl,
    captureAndRecognize_success measure s emptyListAnswer hw rfl]
  refine ⟨rfl, ?_, rfl, rfl, rfl⟩
  show (drawBoxes measure s.overlay []).painted = []
  rw [drawBoxes_painted]
  rfl

/-- C13, at a page whose overlay and list show one face: the answer without a list wipes
both. -/
theorem captureAndRecognize_no_faces_witness :
    (captureAndRecognize monoMeasure streamingPage (Reply.json oneFaceAnswer)).videoWidth ≠ 0 ∧
      (captureAndRecognize monoMeasure streamingPage (Reply.json oneFaceAnswer)).recognizedList ≠
        [] ∧
      (captureAndRecognize monoMeasure
          (captureAndRecognize monoMeasure streamingPage (Reply.json oneFaceAnswer))
          (Reply.json absentListAnswer)).overlay.painted = [] ∧
      (captureAndRecognize monoMeasure
          (captureAndRecognize monoMeasure streamingPage (Reply.json oneFaceAnswer))
          (Reply.json absentListAnswer)).recognizedList = [] :=
  ⟨by decide, by decide,
    (captureAndRecognize_no_faces monoMeasure
      (captureAndRecognize monoMeasure streamingPage (Reply.json oneFaceAnswer))
      (by decide)).2.1,
    (captureAndRecognize_no_faces monoMeasure
      (captureAndRecognize monoMeasure streamingPage (Reply.json oneFaceAnswer))
      (by decide)).2.2.1⟩

/-- C14 fails on the code: on a first start the video learns its 640 by 480 size while
`liveVideo.play()` is awaited, before `onloadedmetadata` is installed, and
`resizeOverlayToVideo` is never called directly; the next successful tick draws on an
overlay that is still 300 by 150. -/
theorem overlay_not_resized_on_first_start :
    (run monoMeasure (initialPage 300 150) metadataDuringPlay).videoWidth = 640 ∧
      (run monoMeasure (initialPage 300 150) metadataDuringPlay).videoHeight = 480 ∧
      (run monoMeasure (initialPage 300 150) metadataDuringPlay).overlay.width = 300 ∧
      (run monoMeasure (initialPage 300 150) metadataDuringPlay).overlay.height = 150 ∧
      (run monoMeasure (initialPage 300 150) metadataDuringPlay).requests =
        [{ width := 640, height := 480 }] ∧
      (run monoMeasure (initialPage 300 150) metadataDuringPlay).overlay.painted =
        overlayOf monoMeasure 300 [tightDetection] := by
  decide

/-- C15: `drawBoxes` strokes exactly one rectangle per detection, in order, at
`(left, top)` with width `right - left` and height `bottom - top`, whatever the sign of
these dimensions; no detection is left out. -/
theorem drawBoxes_one_rectangle_each (measure : String → String → Int) (c : Canvas)
    (boxes : List Detection) :
    (strokesOf (drawBoxes measure c boxes).painted).map Prod.fst =
        boxes.map (fun item =>
          ({ x := item.box.left, y := item.box.top, w := item.box.right - item.box.left,
             h := item.box.bottom - item.box.top, r := 6 } : RoundRect)) ∧
      (strokesOf (drawBoxes measure c boxes).painted).length = boxes.length := by
  rw [drawBoxes_painted, strokesOf_overlayOf]
  refine ⟨?_, by simp⟩
  rw [List.map_map]
  rfl

/-- C16: for the single detection of Alice, `drawBoxes` strokes exactly one rectangle, the
box `(10, 10, 100, 80)`, in the affirmative colour, and draws the label text "Alice" at
`y = 2`; with the label background these three primitives are all it paints. -/
theorem drawBoxes_alice_scenario (measure : String → String → Int) (c : Canvas) :
    strokesOf (drawBoxes measure c [aliceDetection]).painted =
        [({ x := 10, y := 10, w := 100, h := 80, r := 6 }, "#22c55e")] ∧
      (textsOf (drawBoxes measure c [aliceDetection]).painted).map (fun t => (t.1, t.2.2)) =
        [("Alice", 2)] ∧
      (drawBoxes measure c [aliceDetection]).painted =
        [ Painted.strokeRoundRect { x := 10, y := 10, w := 100, h := 80, r := 6 } 2 "#22c55e",
          Painted.fillRect (labelX c.width (measure "14px system-ui" "Alice") 10 - 4) (2 - 12)
            (measure "14px system-ui" "Alice" + 8) 16 "#22c55e",
          Painted.fillText "Alice" (labelX c.width (measure "14px system-ui" "Alice") 10) 2
            "14px system-ui" "#0b1220" ] := by
  rw [drawBoxes_painted, strokesOf_overlayOf, textsOf_overlayOf]
  exact ⟨by decide, by simp only [List.map_cons, List.map_nil]; decide, rfl⟩

/-- C17: for the single detection without a name, `drawBoxes` strokes the rectangle, the
box `(5, 5, 55, 40)`, in the warning colour and draws the label text "Unknown" at `y = 21`;
with the label background these three primitives are all it paints. -/
theorem drawBoxes_nameless_scenario (measure : String → String → Int) (c : Canvas) :
    strokesOf (drawBoxes measure c [namelessDetection]).painted =
        [({ x := 5, y := 5, w := 55, h := 40, r := 6 }, "#ef4444")] ∧
      (textsOf (drawBoxes measure c [namelessDetection]).painted).map (fun t => (t.1, t.2.2)) =
        [("Unknown", 21)] ∧
      (drawBoxes measure c [namelessDetection]).painted =
        [ Painted.strokeRoundRect { x := 5, y := 5, w := 55, h := 40, r := 6 } 2 "#ef4444",
          Painted.fillRect (labelX c.width (measure "14px system-ui" "Unknown") 5 - 4) (21 - 12)
            (measure "14px system-ui" "Unknown" + 8) 16 "#ef4444",
          Painted.fillText "Unknown" (labelX c.width (measure "14px system-ui" "Unknown") 5) 21
            "14px system-ui" "#0b1220" ] := by
  rw [drawBoxes_painted, strokesOf_overlayOf, textsOf_overlayOf]
  exact ⟨by decide, by simp only [List.map_cons, List.map_nil]; decide, rfl⟩

end FaceAttendance

namespace MeetingMinutes

/-- C18, as stated, fails: a 200 MB file that is not named as an MP3 is rejected with the
file-type error, not the size error; and an MP3 of exactly 100 MB, whose size is not below
the limit, becomes the selected file without any toast. -/
theorem handleFileSelection_limit_cases :
    (¬ (bigWav.size < maxSize) ∧
      (handleFileSelection plainSize emptyUpload bigWav).toasts =
        [{ message := "Please select an MP3 file only.", type := "error" }]) ∧
    (¬ (exactLimitMp3.size < maxSize) ∧
      (handleFileSelection plainSize emptyUpload exactLimitMp3).selectedFile =
        some exactLimitMp3 ∧
      (handleFileSelection plainSize emptyUpload exactLimitMp3).toasts = []) := by
  decide

/-- C18 (amended): every file whose size is above 100 MB is rejected by
`handleFileSelection` and does not become the selected file: with the size error when its
name ends in `.mp3` (ignoring case), with the file-type error otherwise. -/
theorem handleFileSelection_oversize (formatFileSize : Nat → String) (s : UploadPage)
    (file : File) (h : 100 * 1024 * 1024 < file.size) :
    (handleFileSelection formatFileSize s file).selectedFile = s.selectedFile ∧
      (handleFileSelection formatFileSize s file).processBtnDisabled = s.processBtnDisabled ∧
      (endsWithMp3 file.name = true →
        (handleFileSelection formatFileSize s file).toasts =
          s.toasts ++ [{ message := "File size must be less than 100MB.", type := "error" }]) ∧
      (endsWithMp3 file.name = false →
        (handleFileSelection formatFileSize s file).toasts =
          s.toasts ++ [{ message := "Please select an MP3 file only.", type := "error" }]) := by
  have hsize : file.size > maxSize := h
  cases hname : endsWithMp3 file.name <;>
    simp [handleFileSelection, showToast, hname, hsize]

/-- C18 (amended), at an MP3 one byte above 100 MB: size error, nothing selected. -/
theorem handleFileSelection_oversize_witness :
    100 * 1024 * 1024 < overLimitMp3.size ∧
      (handleFileSelection plainSize emptyUpload overLimitMp3).selectedFile = none ∧
      (handleFileSelection plainSize emptyUpload overLimitMp3).toasts =
        emptyUpload.toasts ++
          [{ message := "File size must be less than 100MB.", type := "error" }] :=
  ⟨by decide,
    (handleFileSelection_oversize plainSize emptyUpload overLimitMp3 (by decide)).1,
    (handleFileSelection_oversize plainSize emptyUpload overLimitMp3 (by decide)).2.2.1
      (by decide)⟩

end MeetingMinutes

namespace CVGenerator

theorem addExperienceItem_keeps (f : Form) (h : KeepsResponsibility f) :
    KeepsResponsibility (addExperienceItem f) := by
  intro e he
  simp only [addExperienceItem, List.mem_append, List.mem_singleton] at he
  rcases he with he | he
  · exact h e he
  · subst he
    simp

theorem addResponsibilityIn_keeps (i : Nat) (es : List Experience)
    (h : ∀ e ∈ es, 1 ≤ e.responsibilities.length) :
    ∀ e ∈ addResponsibilityIn i es, 1 ≤ e.responsibilities.length := by
  induction es with
  | nil => intro e he; simp [addResponsibilityIn] at he
  | cons x rest ih =>
    intro e he
    unfold addResponsibilityIn at he
    split at he
    · rcases List.mem_cons.mp he with he | he
      · subst he
        simp
      · exact h e (List.mem_cons_of_mem _ he)
    · rcases List.mem_cons.mp he with he | he
      · subst he
        exact h e (List.mem_cons_self _ _)
      · exact ih (fun y hy => h y (List.mem_cons_of_mem _ hy)) e he

theorem removeResponsibility_keeps (f : Form) (p k : Nat) (h : KeepsResponsibility f) :
    KeepsResponsibility (removeResponsibility f p k) := by
  unfold removeResponsibility
  split
  · exact h
  · rename_i e _
    by_cases hk : k < e.responsibilities.length
    · by_cases hn : e.responsibilities.length > 1
      · simp only [hk, hn, if_true]
        intro x hx
        rcases List.mem_or_eq_of_mem_set hx with hx | hx
        · exact h x hx
        · subst hx
          simp only [List.length_eraseIdx, hk, if_true]
          omega
      · simp only [hk, hn, if_true, if_false]
        exact h
    · simp only [hk, if_false]
      exact h

theorem applyOp_keeps (f : Form) (op : FormOp) (h : KeepsResponsibility f) :
    KeepsResponsibility (applyOp f op) := by
  cases op with
  | addExperience => exact addExperienceItem_keeps f h
  | addResp i => exact addResponsibilityIn_keeps i f.experiences h
  | removeResp p k => exact removeResponsibility_keeps f p k h

theorem applyOps_keeps (ops : List FormOp) :
    ∀ f : Form, KeepsResponsibility f → KeepsResponsibility (applyOps f ops) := by
  induction ops with
  | nil => intro f h; exact h
  | cons op rest ih =>
    intro f h
    exact ih (applyOp f op) (applyOp_keeps f op h)

/-- C19: for a container with `n ≥ 1` responsibility items, `removeResponsibility` leaves
`n - 1` items when `n > 1`, and when `n = 1` leaves the container as it is and shows the
warning toast; so under any sequence of operations that add experiences and add or remove
responsibilities every experience keeps at least one responsibility. -/
theorem removeResponsibility_keeps_last (f : Form) (p k : Nat) (e : Experience)
    (ops : List FormOp) (he : f.experiences.get? p = some e)
    (hk : k < e.responsibilities.length) :
    (1 < e.responsibilities.length →
        ((removeResponsibility f p k).experiences.get? p).map
            (fun x => x.responsibilities.length) = some (e.responsibilities.length - 1) ∧
          (removeResponsibility f p k).toasts = f.toasts) ∧
      (e.responsibilities.length = 1 →
        (removeResponsibility f p k).experiences = f.experiences ∧
          (removeResponsibility f p k).toasts =
            f.toasts ++
              [{ message := "At least one responsibility is required", type := "warning" }]) ∧
      (KeepsResponsibility f → KeepsResponsibility (applyOps f ops)) ∧
      KeepsResponsibility (applyOps emptyForm ops) := by
  have hp : p < f.experiences.length := by
    rw [List.get?_eq_getElem?] at he
    exact (List.getElem?_eq_some.mp he).1
  refine ⟨fun hn => ?_, fun hn => ?_, applyOps_keeps ops f, applyOps_keeps ops emptyForm ?_⟩
  · have hn2 : e.responsibilities.length > 1 := hn
    simp only [removeResponsibility, he, hk, hn2, if_true, List.get?_eq_getElem?,
      List.getElem?_set_self hp, Option.map_some', List.length_eraseIdx]
    exact ⟨trivial, trivial⟩
  · have hn2 : ¬ e.responsibilities.length > 1 := by omega
    simp only [removeResponsibility, he, hk, hn2, if_true, if_false, showToast]
    exact ⟨trivial, trivial⟩
  · intro x hx
    simp [emptyForm] at hx

/-- C19, at an experience created by `addExperienceItem` (one responsibility: the removal
is refused with the warning) and at the same experience after one `addResponsibility` (two
responsibilities: the removal leaves one). -/
theorem removeResponsibility_keeps_last_witness :
    (removeResponsibility (addExperienceItem emptyForm) 0 0).experiences =
        (addExperienceItem emptyForm).experiences ∧
      ((removeResponsibility (addResponsibility (addExperienceItem emptyForm) 1) 0 0).experiences.get?
          0).map (fun x => x.responsibilities.length) = some (2 - 1) ∧
      KeepsResponsibility
        (applyOps emptyForm
          [FormOp.addExperience, FormOp.addResp 1, FormOp.removeResp 0 0,
           FormOp.removeResp 0 0]) :=
  ⟨((removeResponsibility_keeps_last (addExperienceItem emptyForm) 0 0
      { index := 1, responsibilities := [respName 1 1] } [] rfl (by decide)).2.1
      rfl).1,
    ((removeResponsibility_keeps_last (addResponsibility (addExperienceItem emptyForm) 1) 0 0
      { index := 1, responsibilities := [respName 1 1, respName 1 2] } [] rfl (by decide)).1
      (by decide)).1,
    (removeResponsibility_keeps_last (addExperienceItem emptyForm) 0 0
      { index := 1, responsibilities := [respName 1 1] }
      [FormOp.addExperience, FormOp.addResp 1, FormOp.removeResp 0 0, FormOp.removeResp 0 0]
      rfl (by decide)).2.2.2⟩

/-- C20 fails on the code: with "Python" already in the skills field and "Python" and
"Docker" selected, `addSelectedKeywords` appends one keyword, "Docker", and reports
"Added 2 keywords to technical skills!". -/
theorem addSelectedKeywords_overcounts :
    selectedKeywords pythonForm = ["Python", "Docker"] ∧
      appendedKeywords pythonForm = ["Docker"] ∧
      (addSelectedKeywords pythonForm).skillsTechnical = "Python, Docker" ∧
      (addSelectedKeywords pythonForm).toasts =
        [{ message := "Added 2 keywords to technical skills!", type := "success" }] := by
  decide

end CVGenerator

namespace ProductRecommendation

theorem trim_empty : Js.trim "" = "" := by
  decide

theorem fieldFilled_iff (data : List (String × String)) (field : String) :
    fieldFilled data field = true ↔
      ∃ v, Js.objGet data field = some v ∧ Js.trim v ≠ "" := by
  unfold fieldFilled
  cases h : Js.objGet data field with
  | none => simp
  | some v =>
    by_cases hv : v = ""
    · subst hv
      simp [trim_empty]
    · simp [hv]

/-- C21: `validateForm` returns true exactly when each of the seven required fields has a
value in the form data that is not blank after trimming, and it sets the `disabled`
property of the submit button to the negation of the value it returns. -/
theorem validateForm_spec (app : App) (entries : List (String × String)) :
    ((validateForm app entries).2 = true ↔
        ∀ field ∈ ["region", "gender", "user_age_group", "user_preferences", "season",
            "product_keywords", "previous_buy"],
          ∃ v, Js.objGet (fromEntries entries) field = some v ∧ Js.trim v ≠ "") ∧
      (validateForm app entries).1.submitDisabled = !(validateForm app entries).2 := by
  refine ⟨?_, rfl⟩
  show (requiredFields.all (fieldFilled (fromEntries entries)) = true ↔ _)
  rw [List.all_eq_true]
  constructor
  · intro h field hf
    exact (fieldFilled_iff _ field).mp (h field hf)
  · intro h field hf
    exact (fieldFilled_iff _ field).mpr (h field hf)

/-- C21, at a completely filled form (valid, button enabled), at the same form with the
season blanked out, and at the form without any entry (both invalid, button disabled). -/
theorem validateForm_spec_witness :
    validateForm { submitDisabled := true } filledEntries = ({ submitDisabled := false }, true) ∧
      validateForm { submitDisabled := false } (filledEntries ++ [("season", "  ")]) =
        ({ submitDisabled := true }, false) ∧
      validateForm { submitDisabled := false } [] = ({ submitDisabled := true }, false) ∧
      ((validateForm { submitDisabled := true } filledEntries).1.submitDisabled =
        !(validateForm { submitDisabled := true } filledEntries).2) :=
  ⟨by decide, by decide, by decide,
    (validateForm_spec { submitDisabled := true } filledEntries).2⟩

end ProductRecommendation

namespace CVGenerator

/-- C22 fails on the code: `bindEvents` registers the click listener of the add-project
button twice and that of the add-certification button twice, so one click runs
`addProjectItem` (or `addCertificationItem`) twice: the counter goes from 0 to 2 and two
items are added. The add-experience button, registered once, adds one. -/
theorem add_buttons_fire_twice :
    (click newGenerator "addProjectBtn").map (fun g => (g.projectCount, g.projects)) =
        some (2, [1, 2]) ∧
      (click newGenerator "addCertificationBtn").map
          (fun g => (g.certificationCount, g.certifications)) = some (2, [1, 2]) ∧
      (click newGenerator "addExperienceBtn").map (fun g => g.form.experienceCount) =
        some 1 := by
  decide

/-- C23 fails on the code: when the first project has an empty title the projects section
is not emitted at all, so the second project, which has a title, has no entry; with the
same two projects in the other order it has one. -/
theorem blank_first_project_hides_section :
    (∃ proj ∈ blankFirstProjects, proj.title = some "Inventory Tracker") ∧
      projectsSection (some blankFirstProjects) = none ∧
      projectsSection (some blankFirstProjects.reverse) =
        some [{ title := "Inventory Tracker",
                description := some "Stock levels for a warehouse",
                technologies := some ["React", "Flask"] }] := by
  decide

/-- C25 fails on the code: after adding a second responsibility, removing the first and
adding another, both responsibility fields of the experience are named
`experience_1_resp_2`, and `getFormData` keeps only the text of the later one. -/
theorem removeThenAdd_duplicates_name :
    (applyOps emptyForm removeThenAdd).experiences =
        [{ index := 1, responsibilities := ["experience_1_resp_2", "experience_1_resp_2"] }] ∧
      ¬ (["experience_1_resp_2", "experience_1_resp_2"] : List String).Nodup ∧
      getFormData
          (responsibilityEntries
            { index := 1, responsibilities := ["experience_1_resp_2", "experience_1_resp_2"] }
            ["Led a team of five", "Cut build time by half"]) =
        [("experience_1_resp_2", "Cut build time by half")] := by
  decide

end CVGenerator

namespace SalesForecast

/-- C24, as stated, fails: with two actual months and a forecast of six months the chart has
8 labels, the "Predicted Sales" dataset has 8 entries and the "Actual Sales" dataset has
5. -/
theorem overallChart_lengths_differ :
    (overallChart twoMonths sixMonthForecast).labels.length = 8 ∧
      (overallChart twoMonths sixMonthForecast).predicted.length = 8 ∧
      (overallChart twoMonths sixMonthForecast).actual.length = 5 := by
  decide

/-- C24 (amended): the predicted dataset has exactly as many entries as the label array;
the actual dataset has three entries more than there are actual points, which is the number
of labels when the forecast has three entries; and in both datasets a value stands at the
index of its own label: the actual values under the actual labels, the predicted values
under the forecast labels, `null` elsewhere. -/
theorem overallChart_alignment (actual_sales : List ActualPoint)
    (forecast : List ForecastPoint) :
    (overallChart actual_sales forecast).predicted.length =
        (overallChart actual_sales forecast).labels.length ∧
      (overallChart actual_sales forecast).actual.length = actual_sales.length + 3 ∧
      (forecast.length = 3 →
        (overallChart actual_sales forecast).actual.length =
          (overallChart actual_sales forecast).labels.length) ∧
      (overallChart actual_sales forecast).labels.take actual_sales.length =
        actual_sales.map (fun d => d.label) ∧
      (overallChart actual_sales forecast).actual.take actual_sales.length =
        actual_sales.map (fun d => some d.Quantity_Sold) ∧
      (overallChart actual_sales forecast).actual.drop actual_sales.length =
        [none, none, none] ∧
      (overallChart actual_sales forecast).labels.drop actual_sales.length =
        forecast.map (fun f => f.month) ∧
      (overallChart actual_sales forecast).predicted.drop actual_sales.length =
        forecast.map (fun f => some f.predicted_total) ∧
      (overallChart actual_sales forecast).predicted.take actual_sales.length =
        List.replicate actual_sales.length none := by
  simp only [overallChart, List.length_append, List.length_map, List.length_replicate,
    List.map_map]
  refine ⟨trivial, by simp, fun h => by simp [h], ?_, ?_, ?_, ?_, ?_, ?_⟩
  · rw [List.take_left']
    simp
  · rw [List.take_left']
    · rfl
    · simp
  · rw [List.drop_left']
    simp
  · rw [List.drop_left']
    simp
  · rw [List.drop_left']
    · rfl
    · simp
  · rw [List.take_left']
    simp

/-- C24 (amended), at two actual months and a forecast of three months: five labels and
five entries in each dataset. -/
theorem overallChart_alignment_witness :
    threeMonthForecast.length = 3 ∧
      (overallChart twoMonths threeMonthForecast).actual.length =
        (overallChart twoMonths threeMonthForecast).labels.length ∧
      (overallChart twoMonths threeMonthForecast).labels.length = 5 :=
  ⟨by decide, (overallChart_alignment twoMonths threeMonthForecast).2.2.1 (by decide),
    by decide⟩

end SalesForecast

namespace Js

theorem objGet_objSet {α : Type} (o : List (String × α)) (k k' : String) (v : α) :
    objGet (objSet o k v) k' = if k = k' then some v else objGet o k' := by
  induction o with
  | nil => simp [objSet, objGet]
  | cons p rest ih =>
    obtain ⟨a, w⟩ := p
    by_cases h : a = k
    · subst h
      by_cases h2 : a = k' <;> simp [objSet, objGet, h2]
    · have hk : ¬ k = a := fun e => h e.symm
      by_cases h2 : a = k'
      · subst h2
        simp [objSet, objGet, h, hk]
      · simp [objSet, objGet, h, h2, ih]

theorem mem_keys_objSet {α : Type} (o : List (String × α)) (k k' : String) (v : α) :
    k' ∈ (objSet o k v).map Prod.fst ↔ k' = k ∨ k' ∈ o.map Prod.fst := by
  induction o with
  | nil => simp [objSet]
  | cons p rest ih =>
    obtain ⟨a, w⟩ := p
    by_cases h : a = k
    · subst h
      simp [objSet]
    · simp only [objSet, h, if_false, List.map_cons, List.mem_cons, ih]
      tauto

theorem nodup_keys_objSet {α : Type} (o : List (String × α)) (k : String) (v : α)
    (h : (o.map Prod.fst).Nodup) : ((objSet o k v).map Prod.fst).Nodup := by
  induction o with
  | nil => simp [objSet]
  | cons p rest ih =>
    obtain ⟨a, w⟩ := p
    rw [List.map_cons, List.nodup_cons] at h
    by_cases hk : a = k
    · subst hk
      simp only [objSet, if_true, List.map_cons, List.nodup_cons]
      exact h
    · simp only [objSet, hk, if_false, List.map_cons, List.nodup_cons]
      refine ⟨fun hmem => ?_, ih h.2⟩
      rcases (mem_keys_objSet rest k a v).mp hmem with e | e
      · exact hk e
      · exact h.1 e

theorem objSet_objSet {α : Type} (o : List (String × α)) (k : String) (v w : α) :
    objSet (objSet o k v) k w = objSet o k w := by
  induction o with
  | nil => simp [objSet]
  | cons p rest ih =>
    obtain ⟨a, u⟩ := p
    by_cases h : a = k
    · subst h
      simp [objSet]
    · simp [objSet, h, ih]

theorem objGet_eq_none_iff {α : Type} (o : List (String × α)) (k : String) :
    objGet o k = none ↔ k ∉ o.map Prod.fst := by
  induction o with
  | nil => simp [objGet]
  | cons p rest ih =>
    obtain ⟨a, u⟩ := p
    by_cases h : a = k
    · subst h
      simp [objGet]
    · have hk : ¬ k = a := fun e => h e.symm
      simp [objGet, h, hk, ih]

theorem objGet_of_mem {α : Type} (o : List (String × α)) (k : String) (v : α)
    (h : (o.map Prod.fst).Nodup) (hmem : (k, v) ∈ o) : objGet o k = some v := by
  induction o with
  | nil => simp at hmem
  | cons p rest ih =>
    obtain ⟨a, u⟩ := p
    rw [List.map_cons, List.nodup_cons] at h
    rcases List.mem_cons.mp hmem with e | e
    · injection e with e1 e2
      subst e1 e2
      simp [objGet]
    · have hne : a ≠ k := by
        intro e2
        subst e2
        exact h.1 (List.mem_map.mpr ⟨(a, v), e, rfl⟩)
      simp [objGet, hne, ih h.2 e]

end Js

namespace SalesForecast

theorem splitUnderscore_clean (a : List Char) (h : '_' ∉ a) : splitUnderscore a = [a] := by
  induction a with
  | nil => rfl
  | cons c cs ih =>
    have hc : c ≠ '_' := fun e => h (e ▸ List.mem_cons_self _ _)
    have hcs : '_' ∉ cs := fun e => h (List.mem_cons_of_mem _ e)
    simp [splitUnderscore, hc, ih hcs]

theorem splitUnderscore_append (a rest : List Char) (h : '_' ∉ a) :
    splitUnderscore (a ++ '_' :: rest) = a :: splitUnderscore rest := by
  induction a with
  | nil => simp [splitUnderscore]
  | cons c cs ih =>
    have hc : c ≠ '_' := fun e => h (e ▸ List.mem_cons_self _ _)
    have hcs : '_' ∉ cs := fun e => h (List.mem_cons_of_mem _ e)
    simp [splitUnderscore, hc, ih hcs]

theorem split_key (cat gen reg : String) (hc : '_' ∉ cat.toList) (hg : '_' ∉ gen.toList)
    (hr : '_' ∉ reg.toList) : split (cat ++ "_" ++ gen ++ "_" ++ reg) = [cat, gen, reg] := by
  have hdata : (cat ++ "_" ++ gen ++ "_" ++ reg).toList =
      cat.toList ++ '_' :: (gen.toList ++ '_' :: reg.toList) := by
    simp [String.toList]
  unfold split
  rw [hdata, splitUnderscore_append _ _ hc, splitUnderscore_append _ _ hg,
    splitUnderscore_clean _ hr]
  rfl

theorem keyX_key (filterType cat gen reg : String) (hc : '_' ∉ cat.toList)
    (hg : '_' ∉ gen.toList) (hr : '_' ∉ reg.toList) :
    keyX filterType (cat ++ "_" ++ gen ++ "_" ++ reg) = xLabel filterType cat gen reg := by
  unfold keyX
  rw [split_key cat gen reg hc hg hr]
  rfl

theorem keyG_key (filterType cat gen reg : String) (hc : '_' ∉ cat.toList)
    (hg : '_' ∉ gen.toList) (hr : '_' ∉ reg.toList) :
    keyG filterType (cat ++ "_" ++ gen ++ "_" ++ reg) = groupLabel filterType cat gen reg := by
  unfold keyG
  rw [split_key cat gen reg hc hg hr]
  rfl

theorem append_cons_inj (c : Char) :
    ∀ (a a2 b b2 : List Char), c ∉ a → c ∉ a2 → a ++ c :: b = a2 ++ c :: b2 →
      a = a2 ∧ b = b2 := by
  intro a
  induction a with
  | nil =>
    intro a2 b b2 _ h2 heq
    cases a2 with
    | nil => simpa using heq
    | cons d ds =>
      simp only [List.nil_append, List.cons_append, List.cons.injEq] at heq
      exact absurd (heq.1 ▸ List.mem_cons_self _ _) h2
  | cons x xs ih =>
    intro a2 b b2 h1 h2 heq
    cases a2 with
    | nil =>
      simp only [List.nil_append, List.cons_append, List.cons.injEq] at heq
      exact absurd (heq.1 ▸ List.mem_cons_self _ _) h1
    | cons d ds =>
      simp only [List.cons_append, List.cons.injEq] at heq
      obtain ⟨e1, e2⟩ :=
        ih ds b b2 (fun e => h1 (List.mem_cons_of_mem _ e))
          (fun e => h2 (List.mem_cons_of_mem _ e)) heq.2
      exact ⟨by rw [heq.1, e1], e2⟩

theorem dash_inj (a a2 b b2 : String) (h1 : '-' ∉ a.toList) (h2 : '-' ∉ a2.toList)
    (heq : a ++ "-" ++ b = a2 ++ "-" ++ b2) : a = a2 ∧ b = b2 := by
  have hd : a.toList ++ '-' :: b.toList = a2.toList ++ '-' :: b2.toList := by
    have := congrArg String.toList heq
    simpa [String.toList] using this
  obtain ⟨e1, e2⟩ := append_cons_inj '-' _ _ _ _ h1 h2 hd
  exact ⟨String.ext e1, String.ext e2⟩

theorem place_inj (filterType cat gen reg cat2 gen2 reg2 : String)
    (hc : CleanPart cat) (hg : CleanPart gen) (hc2 : CleanPart cat2) (hg2 : CleanPart gen2)
    (hx : xLabel filterType cat gen reg = xLabel filterType cat2 gen2 reg2)
    (hgl : groupLabel filterType cat gen reg = groupLabel filterType cat2 gen2 reg2) :
    cat = cat2 ∧ gen = gen2 ∧ reg = reg2 := by
  unfold xLabel at hx
  unfold groupLabel at hgl
  by_cases h1 : filterType = "category"
  · simp only [h1, if_true] at hx hgl
    obtain ⟨e1, e2⟩ := dash_inj _ _ _ _ hg.2 hg2.2 hgl
    exact ⟨hx, e1, e2⟩
  · by_cases h2 : filterType = "gender"
    · simp only [h1, h2, if_true, if_false] at hx hgl
      obtain ⟨e1, e2⟩ := dash_inj _ _ _ _ hc.2 hc2.2 hgl
      exact ⟨e1, hx, e2⟩
    · simp only [h1, h2, if_false] at hx hgl
      obtain ⟨e1, e2⟩ := dash_inj _ _ _ _ hc.2 hc2.2 hgl
      exact ⟨e1, e2, hx⟩

theorem groupKey_eq (filterType : String) (st : Grouping) (entry : String × Option Int) :
    groupKey filterType st entry =
      { labelsSet := setAdd st.labelsSet (keyX filterType entry.1),
        datasetsMap :=
          Js.objSet st.datasetsMap (keyG filterType entry.1)
            (Js.objSet ((Js.objGet st.datasetsMap (keyG filterType entry.1)).getD [])
              (keyX filterType entry.1) entry.2) } := by
  unfold groupKey keyX keyG
  simp only []
  cases h : Js.objGet st.datasetsMap
      (groupLabel filterType (part (split entry.1) 0) (part (split entry.1) 1)
        (part (split entry.1) 2)) with
  | none => simp [Js.objGet_objSet, Js.objSet_objSet]
  | some vals => simp [h]

theorem cell_objSet (dm : List (String × List (String × Option Int))) (g x : String)
    (v : Option Int) (g2 l : String) :
    cell (Js.objSet dm g (Js.objSet ((Js.objGet dm g).getD []) x v)) g2 l =
      if g = g2 then (if x = l then some v else cell dm g2 l) else cell dm g2 l := by
  unfold cell
  rw [Js.objGet_objSet]
  by_cases hg : g = g2
  · subst hg
    simp only [if_true, Option.bind_some, Js.objGet_objSet]
    cases h : Js.objGet dm g with
    | none => simp [Js.objGet]
    | some vals => simp [Js.objGet_objSet]
  · simp [hg]

end SalesForecast

namespace SalesForecast

theorem mem_setAdd (s : List String) (x l : String) : l ∈ setAdd s x ↔ l ∈ s ∨ l = x := by
  unfold setAdd
  split
  · constructor
    · exact Or.inl
    · rintro (h | h)
      · exact h
      · subst h
        assumption
  · simp

theorem setAdd_nodup (s : List String) (x : String) (h : s.Nodup) : (setAdd s x).Nodup := by
  unfold setAdd
  split
  · exact h
  · rename_i hx
    exact List.Nodup.append h (List.nodup_singleton x)
      (fun a ha hb => hx ((List.mem_singleton.mp hb) ▸ ha))

theorem grouped_nil (filterType : String) :
    Grouped filterType [] { labelsSet := [], datasetsMap := [] } where
  labels_nodup := List.nodup_nil
  mem_labels := by simp
  groups_nodup := List.nodup_nil
  mem_groups := by simp
  cell_iff := by simp [cell, Js.objGet]

theorem grouped_step (filterType : String) (data done : List (String × Option Int))
    (a : String × Option Int) (st : Grouping)
    (hinj : ∀ e ∈ data, ∀ e2 ∈ data, keyX filterType e.1 = keyX filterType e2.1 →
      keyG filterType e.1 = keyG filterType e2.1 → e = e2)
    (hsub : ∀ e ∈ done ++ [a], e ∈ data) (h : Grouped filterType done st) :
    Grouped filterType (done ++ [a]) (groupKey filterType st a) := by
  rw [groupKey_eq]
  refine ⟨setAdd_nodup _ _ h.labels_nodup, fun l => ?_, Js.nodup_keys_objSet _ _ _ h.groups_nodup,
    fun g => ?_, fun g l w => ?_⟩
  · simp only [mem_setAdd, h.mem_labels, List.mem_append, List.mem_singleton]
    constructor
    · rintro (⟨e, he, hx⟩ | hx)
      · exact ⟨e, Or.inl he, hx⟩
      · exact ⟨a, Or.inr rfl, hx.symm⟩
    · rintro ⟨e, he | he, hx⟩
      · exact Or.inl ⟨e, he, hx⟩
      · subst he
        exact Or.inr hx.symm
  · simp only [Js.mem_keys_objSet, h.mem_groups, List.mem_append, List.mem_singleton]
    constructor
    · rintro (hg | ⟨e, he, hg⟩)
      · exact ⟨a, Or.inr rfl, hg.symm⟩
      · exact ⟨e, Or.inl he, hg⟩
    · rintro ⟨e, he | he, hg⟩
      · exact Or.inr ⟨e, he, hg⟩
      · subst he
        exact Or.inl hg.symm
  · simp only [cell_objSet]
    have ha : a ∈ data := hsub a (List.mem_append_right _ (List.mem_singleton_self a))
    constructor
    · intro hc
      by_cases hg : keyG filterType a.1 = g
      · by_cases hx : keyX filterType a.1 = l
        · simp only [hg, hx, if_true, Option.some.injEq] at hc
          exact ⟨a, List.mem_append_right _ (List.mem_singleton_self a), hg, hx, hc⟩
        · simp only [hg, hx, if_true, if_false] at hc
          obtain ⟨e, he, h1, h2, h3⟩ := (h.cell_iff g l w).mp hc
          exact ⟨e, List.mem_append_left _ he, h1, h2, h3⟩
      · simp only [hg, if_false] at hc
        obtain ⟨e, he, h1, h2, h3⟩ := (h.cell_iff g l w).mp hc
        exact ⟨e, List.mem_append_left _ he, h1, h2, h3⟩
    · rintro ⟨e, he, h1, h2, h3⟩
      by_cases hg : keyG filterType a.1 = g
      · by_cases hx : keyX filterType a.1 = l
        · have hea : e = a :=
            hinj e (hsub e he) a ha (h2.trans hx.symm) (h1.trans hg.symm)
          subst hea
          simp [hg, hx, h3]
        · simp only [hg, hx, if_true, if_false]
          rcases List.mem_append.mp he with he | he
          · exact (h.cell_iff g l w).mpr ⟨e, he, h1, h2, h3⟩
          · rw [List.mem_singleton] at he
            subst he
            exact absurd h2 hx
      · simp only [hg, if_false]
        rcases List.mem_append.mp he with he | he
        · exact (h.cell_iff g l w).mpr ⟨e, he, h1, h2, h3⟩
        · rw [List.mem_singleton] at he
          subst he
          exact absurd h1 hg

theorem grouped_foldl (filterType : String) (data : List (String × Option Int))
    (hinj : ∀ e ∈ data, ∀ e2 ∈ data, keyX filterType e.1 = keyX filterType e2.1 →
      keyG filterType e.1 = keyG filterType e2.1 → e = e2)
    (done : List (String × Option Int)) :
    (∀ e ∈ done, e ∈ data) →
      Grouped filterType done
        (done.foldl (groupKey filterType) { labelsSet := [], datasetsMap := [] }) := by
  induction done using List.reverseRecOn with
  | nil => intro _; exact grouped_nil filterType
  | append_singleton l a ih =>
    intro hsub
    rw [List.foldl_append]
    exact grouped_step filterType data l a _ hinj hsub
      (ih (fun e he => hsub e (List.mem_append_left _ he)))

theorem mem_buildDatasets (labels : List String)
    (dm : List (String × List (String × Option Int))) (ds : Dataset) :
    ∀ i, ds ∈ buildDatasets labels i dm →
      ∃ values, (ds.label, values) ∈ dm ∧
        ds.data = labels.map (fun label => orZero values label) := by
  induction dm with
  | nil => intro i h; simp [buildDatasets] at h
  | cons p rest ih =>
    obtain ⟨g, vals⟩ := p
    intro i h
    simp only [buildDatasets, List.mem_cons] at h
    rcases h with h | h
    · subst h
      exact ⟨vals, List.mem_cons_self _ _, rfl⟩
    · obtain ⟨values, hm, hd⟩ := ih (i + 1) h
      exact ⟨values, List.mem_cons_of_mem _ hm, hd⟩

theorem buildDatasets_labels (labels : List String)
    (dm : List (String × List (String × Option Int))) :
    ∀ i, (buildDatasets labels i dm).map (fun ds => ds.label) = dm.map Prod.fst := by
  induction dm with
  | nil => intro i; rfl
  | cons p rest ih =>
    obtain ⟨g, vals⟩ := p
    intro i
    simp [buildDatasets, ih (i + 1)]

theorem buildDatasets_of_mem (labels : List String)
    (dm : List (String × List (String × Option Int))) (g : String)
    (values : List (String × Option Int)) :
    ∀ i, (g, values) ∈ dm →
      ∃ ds ∈ buildDatasets labels i dm, ds.label = g ∧
        ds.data = labels.map (fun label => orZero values label) := by
  induction dm with
  | nil => intro i h; simp at h
  | cons p rest ih =>
    obtain ⟨g2, vals⟩ := p
    intro i h
    rcases List.mem_cons.mp h with h | h
    · injection h with h1 h2
      subst h1 h2
      exact ⟨_, List.mem_cons_self _ _, rfl, rfl⟩
    · obtain ⟨ds, hds, h1, h2⟩ := ih (i + 1) h
      exact ⟨ds, List.mem_cons_of_mem _ hds, h1, h2⟩

end SalesForecast

namespace SalesForecast

theorem keys_place_inj (filterType : String) (data : List (String × Option Int))
    (hkeys : (data.map Prod.fst).Nodup)
    (hform : ∀ e ∈ data, ∃ cat gen reg, CleanPart cat ∧ CleanPart gen ∧ CleanPart reg ∧
      e.1 = cat ++ "_" ++ gen ++ "_" ++ reg) :
    ∀ e ∈ data, ∀ e2 ∈ data, keyX filterType e.1 = keyX filterType e2.1 →
      keyG filterType e.1 = keyG filterType e2.1 → e = e2 := by
  intro e he e2 he2 hx hg
  obtain ⟨c, g, r, hc, hgn, hr, hk⟩ := hform e he
  obtain ⟨c2, g2, r2, hc2, hgn2, hr2, hk2⟩ := hform e2 he2
  rw [hk, hk2, keyX_key _ _ _ _ hc.1 hgn.1 hr.1, keyX_key _ _ _ _ hc2.1 hgn2.1 hr2.1] at hx
  rw [hk, hk2, keyG_key _ _ _ _ hc.1 hgn.1 hr.1, keyG_key _ _ _ _ hc2.1 hgn2.1 hr2.1] at hg
  obtain ⟨e1, e2', e3⟩ := place_inj filterType c g r c2 g2 r2 hc hgn hc2 hgn2 hx hg
  refine List.inj_on_of_nodup_map hkeys he he2 ?_
  rw [hk, hk2, e1, e2', e3]

theorem grouped_cell_of_mem (filterType : String) (done : List (String × Option Int))
    (st : Grouping) (h : Grouped filterType done st) (g : String)
    (values : List (String × Option Int)) (hm : (g, values) ∈ st.datasetsMap) (l : String) :
    cell st.datasetsMap g l = Js.objGet values l := by
  unfold cell
  rw [Js.objGet_of_mem _ _ _ h.groups_nodup hm]
  rfl

/-- C26 fails on the code: with a category called `constructor`, the dataset `F-South`,
which has no key for that category, holds at the position of that label the member
`constructor` that its values object inherits from `Object.prototype`, where the claim and
the `|| 0` of the code want 0. Both keys have the form `cat_gen_reg` with parts free of `_`
and `-`. -/
theorem updateGroupedChart_inherited_member :
    (constructorGrouped.map Prod.fst).Nodup ∧
      (CleanPart "constructor" ∧ CleanPart "Shoes" ∧ CleanPart "M" ∧ CleanPart "F" ∧
        CleanPart "North" ∧ CleanPart "South") ∧
      updateGroupedChart "category" constructorGrouped =
        { labels := ["constructor", "Shoes"],
          datasets :=
            [{ label := "M-North", data := [Cell.number 5, Cell.number 0],
               backgroundColor := "rgba(75,192,192,0.8)" },
             { label := "F-South", data := [Cell.inherited "constructor", Cell.number 7],
               backgroundColor := "rgba(255,99,132,0.8)" }] } := by
  unfold CleanPart
  decide

/-- Grouping lemma: for a grouped-data map with distinct keys of the form `cat_gen_reg`,
whose parts contain neither `_` nor `-`, and for every filter type, the labels of
`updateGroupedChart` have no duplicates, the datasets have distinct labels and one value
per label, and each key is found in the dataset of its two non-axis parts at the position
of its axis part; a position no key stands for holds 0 unless its label names a member of
`Object.prototype`, the case `updateGroupedChart_inherited_member` shows. -/
theorem updateGroupedChart_spec (filterType : String) (data : List (String × Option Int))
    (hkeys : (data.map Prod.fst).Nodup)
    (hform : ∀ e ∈ data, ∃ cat gen reg, CleanPart cat ∧ CleanPart gen ∧ CleanPart reg ∧
      e.1 = cat ++ "_" ++ gen ++ "_" ++ reg) :
    (updateGroupedChart filterType data).labels.Nodup ∧
      ((updateGroupedChart filterType data).datasets.map (fun ds => ds.label)).Nodup ∧
      (∀ ds ∈ (updateGroupedChart filterType data).datasets,
        ds.data.length = (updateGroupedChart filterType data).labels.length) ∧
      (∀ cat gen reg v, CleanPart cat → CleanPart gen → CleanPart reg →
        (cat ++ "_" ++ gen ++ "_" ++ reg, v) ∈ data →
        xLabel filterType cat gen reg ∈ (updateGroupedChart filterType data).labels ∧
        ∃ ds ∈ (updateGroupedChart filterType data).datasets,
          ds.label = groupLabel filterType cat gen reg ∧
          ∀ i : Nat, (updateGroupedChart filterType data).labels[i]? =
              some (xLabel filterType cat gen reg) →
            ds.data[i]? = some (Cell.number (v.getD 0))) ∧
      (∀ ds ∈ (updateGroupedChart filterType data).datasets, ∀ (i : Nat) (label : String),
        (updateGroupedChart filterType data).labels[i]? = some label →
        label ∉ Js.prototypeNames →
        (∀ cat gen reg v, CleanPart cat → CleanPart gen → CleanPart reg →
          (cat ++ "_" ++ gen ++ "_" ++ reg, v) ∈ data →
          ¬ (groupLabel filterType cat gen reg = ds.label ∧
            xLabel filterType cat gen reg = label)) →
        ds.data[i]? = some (Cell.number 0)) := by
  have hG := grouped_foldl filterType data (keys_place_inj filterType data hkeys hform) data
    (fun e he => he)
  simp only [updateGroupedChart]
  generalize data.foldl (groupKey filterType) { labelsSet := [], datasetsMap := [] } = st at hG
  refine ⟨hG.labels_nodup, ?_, fun ds hds => ?_, fun cat gen reg v hc hg hr hmem => ?_,
    fun ds hds i label hi hproto hnone => ?_⟩
  · rw [buildDatasets_labels]
    exact hG.groups_nodup
  · obtain ⟨values, _, hd⟩ := mem_buildDatasets _ _ ds 0 hds
    rw [hd, List.length_map]
  · have hx := keyX_key filterType cat gen reg hc.1 hg.1 hr.1
    have hgl := keyG_key filterType cat gen reg hc.1 hg.1 hr.1
    refine ⟨(hG.mem_labels _).mpr ⟨_, hmem, hx⟩, ?_⟩
    have hgmem := (hG.mem_groups (groupLabel filterType cat gen reg)).mpr ⟨_, hmem, hgl⟩
    obtain ⟨p, hp, hp1⟩ := List.mem_map.mp hgmem
    obtain ⟨g, values⟩ := p
    simp only at hp1
    subst hp1
    obtain ⟨ds, hds, hl, hd⟩ := buildDatasets_of_mem st.labelsSet st.datasetsMap _ values 0 hp
    refine ⟨ds, hds, hl, fun i hi => ?_⟩
    have hcell := (hG.cell_iff (groupLabel filterType cat gen reg)
      (xLabel filterType cat gen reg) v).mpr ⟨_, hmem, hgl, hx, rfl⟩
    rw [grouped_cell_of_mem filterType data st hG _ values hp] at hcell
    rw [hd, List.getElem?_map, hi, Option.map_some']
    simp only [orZero, hcell]
  · obtain ⟨values, hm, hd⟩ := mem_buildDatasets _ _ ds 0 hds
    rw [hd, List.getElem?_map, hi, Option.map_some']
    have hcell := grouped_cell_of_mem filterType data st hG _ values hm label
    cases hv : Js.objGet values label with
    | none => simp [orZero, hv, hproto]
    | some w =>
      rw [hv] at hcell
      obtain ⟨e, he, h1, h2, _⟩ := (hG.cell_iff ds.label label w).mp hcell
      obtain ⟨c, g, r, hc, hg, hr, hk⟩ := hform e he
      rw [hk, keyG_key _ _ _ _ hc.1 hg.1 hr.1] at h1
      rw [hk, keyX_key _ _ _ _ hc.1 hg.1 hr.1] at h2
      have hmem : (c ++ "_" ++ g ++ "_" ++ r, e.2) ∈ data := by
        rw [← hk]
        exact he
      exact absurd ⟨h1, h2⟩ (hnone c g r e.2 hc hg hr hmem)

theorem sampleGrouped_form :
    ∀ e ∈ sampleGrouped, ∃ cat gen reg, CleanPart cat ∧ CleanPart gen ∧ CleanPart reg ∧
      e.1 = cat ++ "_" ++ gen ++ "_" ++ reg := by
  intro e he
  simp only [sampleGrouped, List.mem_cons, List.mem_singleton, List.not_mem_nil, or_false]
    at he
  rcases he with he | he | he | he <;> subst he
  · exact ⟨"Shoes", "M", "North", by unfold CleanPart; decide, by unfold CleanPart; decide,
      by unfold CleanPart; decide, by decide⟩
  · exact ⟨"Shoes", "F", "North", by unfold CleanPart; decide, by unfold CleanPart; decide,
      by unfold CleanPart; decide, by decide⟩
  · exact ⟨"Bags", "F", "South", by unfold CleanPart; decide, by unfold CleanPart; decide,
      by unfold CleanPart; decide, by decide⟩
  · exact ⟨"Bags", "M", "North", by unfold CleanPart; decide, by unfold CleanPart; decide,
      by unfold CleanPart; decide, by decide⟩

/-- The grouping lemma at four keys over two categories, two genders and two regions, grouped by
category: the labels are the two categories, and the key `Shoes_M_North` is found in the
dataset `M-North` at the position of `Shoes`. -/
theorem updateGroupedChart_spec_witness :
    (sampleGrouped.map Prod.fst).Nodup ∧
      updateGroupedChart "category" sampleGrouped =
        { labels := ["Shoes", "Bags"],
          datasets :=
            [{ label := "M-North", data := [Cell.number 40, Cell.number 12],
               backgroundColor := "rgba(75,192,192,0.8)" },
             { label := "F-North", data := [Cell.number 55, Cell.number 0],
               backgroundColor := "rgba(255,99,132,0.8)" },
             { label := "F-South", data := [Cell.number 0, Cell.number 0],
               backgroundColor := "rgba(255,206,86,0.8)" }] } ∧
      (updateGroupedChart "category" sampleGrouped).labels.Nodup ∧
      (∃ ds ∈ (updateGroupedChart "category" sampleGrouped).datasets,
        ds.label = groupLabel "category" "Shoes" "M" "North" ∧
        ∀ i : Nat, (updateGroupedChart "category" sampleGrouped).labels[i]? =
            some (xLabel "category" "Shoes" "M" "North") →
          ds.data[i]? = some (Cell.number ((some 40 : Option Int).getD 0))) :=
  ⟨by decide, by decide,
    (updateGroupedChart_spec "category" sampleGrouped (by decide) sampleGrouped_form).1,
    ((updateGroupedChart_spec "category" sampleGrouped (by decide) sampleGrouped_form).2.2.2.1
      "Shoes" "M" "North" (some 40) (by unfold CleanPart; decide) (by unfold CleanPart; decide)
      (by unfold CleanPart; decide) (by decide)).2⟩

end SalesForecast
